import Mathlib

/-
  Verification development for the MAXTER embeddable chat widget
  (repository `flashbot_backend`, client-side widget sources).

  The repository ships six near-duplicate versions of the widget:
    * `src/widget/widget.js`  — single-mode chat with GA4/Meta/beacon tracking
    * `src/unnamed/part_003`  — single-mode chat without tracking
    * `src/unnamed/part_000`  — two-tab version (Productos / Mi pedido),
                                POST /api/chat and /api/orders/status
    * `src/unnamed/part_001`  — two-tab version, same flows as part_000
    * `src/unnamed/part_002`  — two-mode version (chatState.mode),
                                POST /api/chat and /api/orders
    * `src/unnamed/part_004`  — two-mode version, near duplicate of part_002

  Each version is shallowly embedded below in its own namespace.  DOM
  mutation is modelled as explicit state passing: the chat body is a list
  of rendered items, button disabled flags and labels are state fields,
  and the asynchronous `fetch` is an oracle argument (`Except Unit _`,
  where `.error` stands for a rejected fetch or a failing `r.json()`).
-/

set_option maxHeartbeats 1000000

namespace Flashbot

/-! ## JavaScript-ish values for analytics payloads -/

/-- A fragment of JavaScript values, enough for the analytics payloads the
widget builds: strings, (integer) numbers, arrays and plain objects.  An
object is its list of own properties in insertion order; a later entry
with the same key overrides an earlier one, as in a JS object literal. -/
inductive JVal where
  | s (v : String)
  | i (v : Int)
  | a (items : List JVal)
  | o (fields : List (String × JVal))

/-- A JS object: own properties in insertion order (later entries win). -/
abbrev JsObj := List (String × JVal)

/-- Property read on a JS object: the last binding of the key wins,
mirroring the semantics of object literals with repeated keys. -/
def objGet (o : JsObj) (k : String) : Option JVal :=
  o.reverse.lookup k

/-- The object literal `{ event: eventName, ...payload }` pushed onto
`window.dataLayer` by `track` in `src/widget/widget.js`: the `event`
property is written first, then the payload's properties are spread over
it (so an `event` key inside the payload overrides the event name). -/
def mergedEvent (eventName : String) (payload : JsObj) : JsObj :=
  ("event", JVal.s eventName) :: payload

/-- JS truthiness for the fragment of values we model. -/
def jTruthy : JVal → Bool
  | JVal.s v => v ≠ ""
  | JVal.i v => v ≠ 0
  | JVal.a _ => true
  | JVal.o _ => true

/-- JS `String.prototype.trim`: strip leading and trailing whitespace
(modelled structurally so that it evaluates by reduction). -/
def jsTrim (s : String) : String :=
  String.mk (((s.data.dropWhile Char.isWhitespace).reverse.dropWhile
    Char.isWhitespace).reverse)

/-! ## HTTP requests -/

/-- The JSON bodies the widget can serialize, one constructor per
distinct `JSON.stringify` shape in the sources. -/
inductive ReqBody where
  /-- Body `{ message, page, per_page: 10 }` — part_002/part_004 `/api/chat`. -/
  | msgPagePer (message : String) (page : Int) (perPage : Int)
  /-- Body `{ query, page }` — part_000/part_001 `/api/chat`. -/
  | queryPage (query : String) (page : Int)
  /-- Body `{ message }` — widget.js / part_003 `/api/chat`. -/
  | msgOnly (message : String)
  /-- Body `{ order_no }` — part_000/part_001 `/api/orders/status`. -/
  | orderNo (v : String)
  /-- Body `{ order }` — part_002/part_004 `/api/orders`. -/
  | order (v : String)
  /-- The beacon blob `{ t, event, payload }` sent by `track`. -/
  | beaconEvent (event : String) (payload : JsObj)

/-- An HTTP request as issued by `fetch` or `navigator.sendBeacon`. -/
structure HttpRequest where
  method : String
  contentType : String
  url : String
  body : ReqBody

/-! ## Products, order rows and rendered chat-body items -/

/-- A product object as consumed by the rendering code.  Only the fields
the embedded logic reads are kept; all are strings as delivered in the
backend JSON. -/
structure Product where
  title : String
  price : String
  product_url : String
  buy_url : String
  image : String
  deriving DecidableEq

/-- One row of an order-status answer (part_002/part_004 `renderOrders`):
a record of named cells, read by label. -/
structure OrderItem where
  fields : List (String × String)
  deriving DecidableEq

/-- An item rendered into a chat body: a message bubble with its CSS
class, a product-card list (`.mx-list` / `.mx-products`), or an
order-detail block (`.mx-orders`). -/
inductive BodyItem where
  | msg (text : String) (cls : String)
  | products (items : List Product)
  | orders (items : List OrderItem)
  deriving DecidableEq

/-! ## The `moneyToNumber` helper (widget.js / part_003)

```js
const moneyToNumber = (m) => {
  if (typeof m === "number") return m;
  if (!m) return null;
  const n = m.replace(/[^\d,.\-]/g, "").replace(/\.(?=\d{3,})/g, "").replace(",", ".");
  const f = parseFloat(n);
  return Number.isFinite(f) ? f : null;
};
```
-/

/-- A JS number: NaN, the infinities, or a finite value (modelled as an
exact rational; the claims only distinguish finite / NaN / null, so IEEE
rounding is irrelevant). -/
inductive JSNum where
  | nan
  | inf
  | ninf
  | fin (q : ℚ)
  deriving DecidableEq

/-- The JS values `moneyToNumber` can receive or return. -/
inductive JSValue where
  | num (n : JSNum)
  | str (s : String)
  | jsNull
  | undef
  deriving DecidableEq

/-- The `Number.isFinite` test. -/
def jsIsFinite : JSNum → Bool
  | JSNum.fin _ => true
  | _ => false

/-- Step `m.replace(/[^\d,.\-]/g, "")`: keep only digits, comma, dot, minus. -/
def stripMoney (s : String) : List Char :=
  s.data.filter (fun c => c.isDigit || c == ',' || c == '.' || c == '-')

/-- Step `.replace(/\.(?=\d{3,})/g, "")`: delete every dot that is directly
followed by three or more digits (the lookahead consumes nothing, so the
scan resumes right after the deleted dot). -/
def removeThousandsDots : List Char → List Char
  | [] => []
  | c :: rest =>
    if c = '.' ∧ 3 ≤ (rest.takeWhile Char.isDigit).length then
      removeThousandsDots rest
    else
      c :: removeThousandsDots rest

/-- Step `.replace(",", ".")`: replace only the first comma by a dot. -/
def repComma : List Char → List Char
  | [] => []
  | c :: rest => if c = ',' then '.' :: rest else c :: repComma rest

/-- Digit run to a natural number. -/
def digitsToNat (l : List Char) : Nat :=
  l.foldl (fun a c => 10 * a + (c.toNat - '0'.toNat)) 0

/-- The `parseFloat` builtin, restricted to the alphabet that can reach it here
(digits, `,`, `.`, `-` — the cleaned string): an optional sign followed
by `digits [. digits]`; anything after the longest such prefix is
ignored; NaN when no digit is consumed.  (The `Infinity` literal and
exponents cannot occur over this alphabet.) -/
def parseFloatJS (cs : List Char) : JSNum :=
  let sgn : ℚ × List Char :=
    match cs with
    | '-' :: r => (-1, r)
    | '+' :: r => (1, r)
    | r => (1, r)
  let intD := sgn.2.takeWhile Char.isDigit
  let rest2 := sgn.2.dropWhile Char.isDigit
  let fracD :=
    match rest2 with
    | '.' :: r => r.takeWhile Char.isDigit
    | _ => []
  if intD.isEmpty ∧ fracD.isEmpty then
    JSNum.nan
  else
    JSNum.fin (sgn.1 * ((digitsToNat intD : ℚ) +
      (digitsToNat fracD : ℚ) / (10 : ℚ) ^ fracD.length))

/-- Function `moneyToNumber` from `src/widget/widget.js` lines 14–20 (identical in
`src/unnamed/part_003`).  Note the branch order of the source: the
`typeof m === "number"` test runs before the falsiness test, so the
numbers `0` and `NaN` are returned unchanged and never reach the
`return null` branch. -/
def moneyToNumber (m : JSValue) : JSValue :=
  match m with
  | JSValue.num n => JSValue.num n
  | JSValue.jsNull => JSValue.jsNull
  | JSValue.undef => JSValue.jsNull
  | JSValue.str s =>
    if s = "" then JSValue.jsNull
    else
      let n := repComma (removeThousandsDots (stripMoney s))
      let f := parseFloatJS n
      if jsIsFinite f then JSValue.num f else JSValue.jsNull

/-! ## `src/widget/widget.js` — single-mode widget with tracking -/

namespace WidgetJs

/-- The browser environment `track` interacts with: whether each of the
three pipelines is available and whether its calls throw (each pipeline
is wrapped in its own `try { ... } catch {}`; a throwing pipeline is
modelled as producing no effect). -/
structure TrackEnv where
  /-- The `window.dataLayer.push` call throws. -/
  dataLayerFails : Bool
  /-- Whether `typeof window.fbq === "function"`. -/
  fbqPresent : Bool
  /-- A `window.fbq(...)` call throws. -/
  fbqFails : Bool
  /-- Value of `window.MAXTER_TRACK_ENDPOINT` (absent means undefined). -/
  trackEndpoint : Option String
  /-- Whether `navigator.sendBeacon` exists. -/
  sendBeaconPresent : Bool
  /-- Building the blob or calling `sendBeacon` throws. -/
  beaconFails : Bool

/-- A Meta-Pixel invocation: `fbq("trackCustom", name, payload)` or a
standard `fbq("track", event, {content_name, currency, value})`. -/
inductive FbqCall where
  | trackCustom (name : String) (payload : JsObj)
  | std (event : String) (contentName : Option JVal) (currency : String) (value : JVal)

/-- Observable output of one `track` call. -/
structure TrackOut where
  dataLayerPushes : List JsObj
  fbqCalls : List FbqCall
  beacons : List HttpRequest

/-- Read `payload?.product?.title`. -/
def productTitle (payload : JsObj) : Option JVal :=
  match objGet payload "product" with
  | some (JVal.o fs) => objGet fs "title"
  | _ => none

/-- Read `payload?.product?.price_num || 0`. -/
def productValue (payload : JsObj) : JVal :=
  match objGet payload "product" with
  | some (JVal.o fs) =>
    match objGet fs "price_num" with
    | some v => if jTruthy v then v else JVal.i 0
    | none => JVal.i 0
  | _ => JVal.i 0

/-- The beacon request built by `track` (widget.js lines 64–69):
`navigator.sendBeacon(url, blob)` posts the JSON blob (whose `Blob` type
is `application/json`) to the configured endpoint. -/
def beaconRequest (endpoint eventName : String) (payload : JsObj) : HttpRequest :=
  { method := "POST", contentType := "application/json", url := endpoint,
    body := ReqBody.beaconEvent eventName payload }

/-- Function `track` from widget.js lines 34–71: GA4 dataLayer push, Meta Pixel
calls (a `trackCustom` plus a standard `ViewContent`/`AddToCart` hint for
the two special event names), and the optional beacon.  Each pipeline is
inside its own try/catch. -/
def track (eventName : String) (payload : JsObj) (env : TrackEnv) : TrackOut :=
  let dl := if env.dataLayerFails then [] else [mergedEvent eventName payload]
  let fbq :=
    if env.fbqPresent ∧ ¬env.fbqFails then
      [FbqCall.trackCustom eventName payload]
        ++ (if eventName = "maxter_view_product" then
              [FbqCall.std "ViewContent" (productTitle payload) "MXN" (productValue payload)]
            else [])
        ++ (if eventName = "maxter_buy_click" then
              [FbqCall.std "AddToCart" (productTitle payload) "MXN" (productValue payload)]
            else [])
    else []
  let url := jsTrim (env.trackEndpoint.getD "")
  let bcn :=
    if url ≠ "" ∧ env.sendBeaconPresent ∧ ¬env.beaconFails then
      [beaconRequest url eventName payload]
    else []
  ⟨dl, fbq, bcn⟩

/-- Step `products.slice(0, 20).map((p, i) => ({index: i, title, price,
product_url}))` — the mapped reduction, with its running index. -/
def impItems (i : Nat) : List Product → List JVal
  | [] => []
  | p :: rest =>
    JVal.o [("index", JVal.i i), ("title", JVal.s p.title),
            ("price", JVal.s p.price), ("product_url", JVal.s p.product_url)]
      :: impItems (i + 1) rest

/-- Function `trackImpressions` from widget.js lines 73–81: the single
`maxter_products_shown` event and its payload. -/
def trackImpressions (products : List Product) (queryText : String) : String × JsObj :=
  let items := impItems 0 (products.take 20)
  ("maxter_products_shown",
    [("query", JVal.s queryText), ("items_count", JVal.i products.length),
     ("items", JVal.a items)])

/-- The call `fetch(BACKEND + "/api/chat", {method: "POST", headers:
{"Content-Type": "application/json"}, body: JSON.stringify({message: q})})`
(widget.js lines 238–242). -/
def chatRequest (backend q : String) : HttpRequest :=
  { method := "POST", contentType := "application/json",
    url := backend ++ "/api/chat", body := ReqBody.msgOnly q }

/-- Response of `/api/chat` as consumed by `sendQuery`: `answer` is kept
when truthy (`data && data.answer`), `products` when it is an array. -/
structure WData where
  answer : Option String
  products : Option (List Product)

/-- The widget state `sendQuery` touches.  `events` logs the `track`
calls (name and payload) in order. -/
structure WState where
  backend : String
  inputValue : String
  sendDisabled : Bool
  body : List BodyItem
  events : List (String × JsObj)
  requests : List HttpRequest

/-- Function `addMsg` (widget.js lines 141–147). -/
def addMsg (text who : String) (s : WState) : WState :=
  { s with body := s.body ++
      [BodyItem.msg text (if who = "bot" then "mx-msg mx-msg--bot" else "mx-msg")] }

/-- Function `renderProducts` (widget.js lines 150–226): appends the card list and
fires the impressions event; an empty or missing list renders nothing. -/
def renderProducts (products : List Product) (queryText : String) (s : WState) : WState :=
  if products.isEmpty then s
  else
    { s with body := s.body ++ [BodyItem.products products],
             events := s.events ++ [trackImpressions products queryText] }

/-- Function `sendQuery` (widget.js lines 229–255).  The oracle is the fetch:
`.error msg` stands for a rejected fetch or a failing `r.json()` with
error message `msg`. -/
def sendQuery (o : Except String WData) (s : WState) : WState :=
  let q := jsTrim s.inputValue
  if q = "" then s
  else
    let s := addMsg q "user" s
    let s := { s with inputValue := "", sendDisabled := true,
                      events := s.events ++ [("maxter_query_sent", [("query", JVal.s q)])],
                      requests := s.requests ++ [chatRequest s.backend q] }
    match o with
    | Except.ok data =>
      let ans := data.answer.getD "Lo siento, no tengo esa info por ahora."
      let s := addMsg ans "bot" s
      let s :=
        match data.products with
        | some ps => renderProducts ps q s
        | none => s
      let s := { s with events := s.events ++
        [("maxter_query_answered",
          [("query", JVal.s q), ("products", JVal.i ((data.products.getD []).length : Int))])] }
      { s with sendDisabled := false }
    | Except.error msg =>
      let s := addMsg "Hubo un problema al consultar. Intenta de nuevo." "bot" s
      let s := { s with events := s.events ++
        [("maxter_query_error", [("message", JVal.s msg)])] }
      { s with sendDisabled := false }

end WidgetJs

/-! ## `src/unnamed/part_003` — single-mode widget, no tracking -/

namespace Part003

/-- The `/api/chat` request of part_003's `sendQuery` (lines 142–146),
identical in shape to widget.js. -/
def chatRequest (backend q : String) : HttpRequest :=
  { method := "POST", contentType := "application/json",
    url := backend ++ "/api/chat", body := ReqBody.msgOnly q }

/-- part_003 widget state (no analytics log). -/
structure P3State where
  backend : String
  inputValue : String
  sendDisabled : Bool
  body : List BodyItem
  requests : List HttpRequest

/-- Function `addMsg` (part_003 lines 82–88), identical to widget.js. -/
def addMsg (text who : String) (s : P3State) : P3State :=
  { s with body := s.body ++
      [BodyItem.msg text (if who = "bot" then "mx-msg mx-msg--bot" else "mx-msg")] }

/-- Function `renderProducts` (part_003 lines 91–131): card list only. -/
def renderProducts (products : List Product) (s : P3State) : P3State :=
  if products.isEmpty then s
  else { s with body := s.body ++ [BodyItem.products products] }

/-- Function `sendQuery` (part_003 lines 134–157). -/
def sendQuery (o : Except Unit WidgetJs.WData) (s : P3State) : P3State :=
  let q := jsTrim s.inputValue
  if q = "" then s
  else
    let s := addMsg q "user" s
    let s := { s with inputValue := "", sendDisabled := true,
                      requests := s.requests ++ [chatRequest s.backend q] }
    match o with
    | Except.ok data =>
      let ans := data.answer.getD "Lo siento, no tengo esa info por ahora."
      let s := addMsg ans "bot" s
      let s :=
        match data.products with
        | some ps => renderProducts ps s
        | none => s
      { s with sendDisabled := false }
    | Except.error _ =>
      let s := addMsg "Hubo un problema al consultar. Intenta de nuevo." "bot" s
      { s with sendDisabled := false }

end Part003

/-! ## `src/unnamed/part_000` and `src/unnamed/part_001` — two-tab versions

Both keep the same `chatState` `{ isLoading, currentQuery, currentPage,
pagination, lastResponse }` (`lastResponse` is declared but never written
or read, so it is omitted) and run the products flow against
`/api/chat` (body `{query, page}`) and the orders flow against
`/api/orders/status` (body `{order_no}`). -/

/-- The pagination object of part_000/part_001:
`{ has_next, has_prev, total_pages }`. -/
structure Pagi0 where
  has_next : Bool
  has_prev : Bool
  total_pages : Int
  deriving DecidableEq

/-- A `/api/chat` answer as consumed by `paintProductsAnswer` in
part_000/part_001.  `Option` fields are `none` when absent or falsy. -/
structure Ans0 where
  answer_html : Option String
  answer : Option String
  cards_html : Option String
  pagination : Option Pagi0

/-- State shared by the part_000 and part_001 embeddings: the chat state
object plus the DOM pieces the handlers mutate (two chat bodies, the two
submit buttons, the pagination bar). -/
structure LState where
  backend : String
  isLoading : Bool
  currentQuery : String
  currentPage : Int
  pagination : Option Pagi0
  bodyProducts : List BodyItem
  bodyOrders : List BodyItem
  btnPDisabled : Bool
  btnPLabel : String
  btnODisabled : Bool
  btnOLabel : String
  pagiDisplay : String
  pagiInfo : String
  prevDisabled : Bool
  nextDisabled : Bool
  requests : List HttpRequest

/-- Function `htmlEscape` (part_000 lines 74–76, part_001 lines 177–179):
replace the five HTML-special characters by entities. -/
def htmlEscapeChar (c : Char) : String :=
  if c = '&' then "&amp;"
  else if c = '<' then "&lt;"
  else if c = '>' then "&gt;"
  else if c = '"' then "&quot;"
  else if c = '\'' then "&#39;"
  else String.singleton c

/-- String version of `htmlEscape`. -/
def htmlEscape (s : String) : String :=
  s.data.foldl (fun acc c => acc ++ htmlEscapeChar c) ""

namespace Part000

/-- The `/api/chat` fetch of `performSearch` (part_000 lines 211–215):
POST with body `{ query: q, page }`. -/
def chatRequest (backend q : String) (page : Int) : HttpRequest :=
  { method := "POST", contentType := "application/json",
    url := backend ++ "/api/chat", body := ReqBody.queryPage q page }

/-- The `/api/orders/status` fetch of `performOrderLookup` (part_000
lines 266–270): POST with body `{ order_no: orderRaw }`. -/
def orderStatusRequest (backend raw : String) : HttpRequest :=
  { method := "POST", contentType := "application/json",
    url := backend ++ "/api/orders/status", body := ReqBody.orderNo raw }

/-- Function `appendMsg` into the products body (part_000 lines 60–64):
bot messages get class `mx-msg`, user messages `mx-msg user`. -/
def appendMsgP (htmlStr role : String) (s : LState) : LState :=
  { s with bodyProducts := s.bodyProducts ++
      [BodyItem.msg htmlStr (if role = "bot" then "mx-msg" else "mx-msg user")] }

/-- Function `appendMsg` into the orders body. -/
def appendMsgO (htmlStr role : String) (s : LState) : LState :=
  { s with bodyOrders := s.bodyOrders ++
      [BodyItem.msg htmlStr (if role = "bot" then "mx-msg" else "mx-msg user")] }

/-- Function `setLoading` (part_000 lines 65–69): sets
`chatState.isLoading` and the products submit button. -/
def setLoading (isOn : Bool) (s : LState) : LState :=
  { s with isLoading := isOn, btnPDisabled := isOn,
           btnPLabel := if isOn then "Consultando..." else "Enviar" }

/-- Function `setLoadingOrders` (part_000 lines 70–73): only the orders
submit button; note that it does not touch `isLoading`. -/
def setLoadingOrders (isOn : Bool) (s : LState) : LState :=
  { s with btnODisabled := isOn,
           btnOLabel := if isOn then "Consultando..." else "Consultar" }

/-- Function `updatePaginationUI` (part_000 lines 189–196).  The disabled
flags are computed from the *current* `isLoading`, which is still true
when this runs from inside `performSearch`. -/
def updatePaginationUI (s : LState) : LState :=
  match s.pagination with
  | none => { s with pagiDisplay := "none" }
  | some p =>
    { s with pagiDisplay := "block",
             prevDisabled := !p.has_prev || s.isLoading,
             nextDisabled := !p.has_next || s.isLoading,
             pagiInfo := "Página " ++ toString s.currentPage ++ " de "
               ++ toString p.total_pages }

/-- Function `paintProductsAnswer` (part_000 lines 198–204): prefer
`answer_html`, else escape `answer`; then `cards_html`; then store
`ans.pagination || null` and refresh the pagination bar. -/
def paintProductsAnswer (ans : Ans0) (s : LState) : LState :=
  let s :=
    match ans.answer_html with
    | some h => appendMsgP h "bot" s
    | none =>
      match ans.answer with
      | some a => appendMsgP (htmlEscape a) "bot" s
      | none => s
  let s :=
    match ans.cards_html with
    | some c => appendMsgP c "bot" s
    | none => s
  updatePaginationUI { s with pagination := ans.pagination }

/-- Function `performSearch` (part_000 lines 206–228).  The oracle
carries `resp.ok` and the decoded JSON; `.error` is a rejected fetch or
failing `resp.json()`. -/
def performSearch (q : String) (page : Int) (fromUser : Bool)
    (o : Except Unit (Bool × Ans0)) (s : LState) : LState :=
  if jsTrim q = "" then s
  else
    let s := if fromUser then appendMsgP (htmlEscape q) "user" s else s
    let s := setLoading true s
    let s := { s with requests := s.requests ++ [chatRequest s.backend q page] }
    match o with
    | Except.error _ =>
      setLoading false (appendMsgP "Error de red consultando el backend." "bot" s)
    | Except.ok (ok, data) =>
      if ok then
        setLoading false
          (paintProductsAnswer data { s with currentQuery := q, currentPage := page })
      else
        setLoading false (appendMsgP "Hubo un error realizando la búsqueda." "bot" s)

/-- The `mxPrevBtn` click handler (part_000 lines 236–240). -/
def clickPrev (o : Except Unit (Bool × Ans0)) (s : LState) : LState :=
  match s.pagination with
  | some p =>
    if p.has_prev ∧ ¬s.isLoading then
      performSearch s.currentQuery (s.currentPage - 1) false o s
    else s
  | none => s

/-- The `mxNextBtn` click handler (part_000 lines 241–245). -/
def clickNext (o : Except Unit (Bool × Ans0)) (s : LState) : LState :=
  match s.pagination with
  | some p =>
    if p.has_next ∧ ¬s.isLoading then
      performSearch s.currentQuery (s.currentPage + 1) false o s
    else s
  | none => s

/-- Function `performOrderLookup` (part_000 lines 261–282).  The oracle
carries `resp.ok`, `data.ok` and `data.answer` (`none` when falsy). -/
def performOrderLookup (orderRaw : String)
    (o : Except Unit (Bool × Bool × Option String)) (s : LState) : LState :=
  if jsTrim orderRaw = "" then s
  else
    let s := appendMsgO ("Consultar pedido: " ++ htmlEscape orderRaw) "user" s
    let s := setLoadingOrders true s
    let s := { s with requests := s.requests ++ [orderStatusRequest s.backend orderRaw] }
    match o with
    | Except.error _ =>
      setLoadingOrders false (appendMsgO "Error de red consultando el estatus." "bot" s)
    | Except.ok (respOk, dataOk, ans) =>
      if respOk ∧ dataOk then
        setLoadingOrders false (appendMsgO (ans.getD "Sin datos.") "bot" s)
      else
        setLoadingOrders false
          (appendMsgO "No fue posible consultar el estatus en este momento." "bot" s)

end Part000

namespace Part001

/-- The `/api/chat` fetch of `performSearch` (part_001 lines 161–165). -/
def chatRequest (backend q : String) (page : Int) : HttpRequest :=
  { method := "POST", contentType := "application/json",
    url := backend ++ "/api/chat", body := ReqBody.queryPage q page }

/-- The `/api/orders/status` fetch of `performOrderLookup` (part_001
lines 219–223). -/
def orderStatusRequest (backend raw : String) : HttpRequest :=
  { method := "POST", contentType := "application/json",
    url := backend ++ "/api/orders/status", body := ReqBody.orderNo raw }

/-- Function `appendMsg` into the products body (part_001 lines 51–55). -/
def appendMsgP (htmlStr role : String) (s : LState) : LState :=
  { s with bodyProducts := s.bodyProducts ++
      [BodyItem.msg htmlStr (if role = "bot" then "mx-msg" else "mx-msg user")] }

/-- Function `appendMsg` into the orders body. -/
def appendMsgO (htmlStr role : String) (s : LState) : LState :=
  { s with bodyOrders := s.bodyOrders ++
      [BodyItem.msg htmlStr (if role = "bot" then "mx-msg" else "mx-msg user")] }

/-- Function `setLoading` (part_001 lines 56–60). -/
def setLoading (isOn : Bool) (s : LState) : LState :=
  { s with isLoading := isOn, btnPDisabled := isOn,
           btnPLabel := if isOn then "Consultando..." else "Enviar" }

/-- Function `setLoadingOrders` (part_001 lines 61–64). -/
def setLoadingOrders (isOn : Bool) (s : LState) : LState :=
  { s with btnODisabled := isOn,
           btnOLabel := if isOn then "Consultando..." else "Consultar" }

/-- Function `updatePaginationUI` (part_001 lines 139–146), identical to
part_000's. -/
def updatePaginationUI (s : LState) : LState :=
  match s.pagination with
  | none => { s with pagiDisplay := "none" }
  | some p =>
    { s with pagiDisplay := "block",
             prevDisabled := !p.has_prev || s.isLoading,
             nextDisabled := !p.has_next || s.isLoading,
             pagiInfo := "Página " ++ toString s.currentPage ++ " de "
               ++ toString p.total_pages }

/-- Function `paintProductsAnswer` (part_001 lines 148–154).  Unlike
part_000, there is no fallback to a plain `answer` field: only
`answer_html` and `cards_html` are rendered. -/
def paintProductsAnswer (ans : Ans0) (s : LState) : LState :=
  let s :=
    match ans.answer_html with
    | some h => appendMsgP h "bot" s
    | none => s
  let s :=
    match ans.cards_html with
    | some c => appendMsgP c "bot" s
    | none => s
  updatePaginationUI { s with pagination := ans.pagination }

/-- Function `performSearch` (part_001 lines 156–175). -/
def performSearch (q : String) (page : Int) (fromUser : Bool)
    (o : Except Unit (Bool × Ans0)) (s : LState) : LState :=
  if jsTrim q = "" then s
  else
    let s := if fromUser then appendMsgP (htmlEscape q) "user" s else s
    let s := setLoading true s
    let s := { s with requests := s.requests ++ [chatRequest s.backend q page] }
    match o with
    | Except.error _ =>
      setLoading false (appendMsgP "Error de red consultando el backend." "bot" s)
    | Except.ok (ok, data) =>
      if ok then
        setLoading false
          (paintProductsAnswer data { s with currentQuery := q, currentPage := page })
      else
        setLoading false (appendMsgP "Hubo un error realizando la búsqueda." "bot" s)

/-- The `mxPrevBtn` click handler (part_001 lines 187–191). -/
def clickPrev (o : Except Unit (Bool × Ans0)) (s : LState) : LState :=
  match s.pagination with
  | some p =>
    if p.has_prev ∧ ¬s.isLoading then
      performSearch s.currentQuery (s.currentPage - 1) false o s
    else s
  | none => s

/-- The `mxNextBtn` click handler (part_001 lines 192–196). -/
def clickNext (o : Except Unit (Bool × Ans0)) (s : LState) : LState :=
  match s.pagination with
  | some p =>
    if p.has_next ∧ ¬s.isLoading then
      performSearch s.currentQuery (s.currentPage + 1) false o s
    else s
  | none => s

/-- Function `performOrderLookup` (part_001 lines 214–235), identical to
part_000's. -/
def performOrderLookup (orderRaw : String)
    (o : Except Unit (Bool × Bool × Option String)) (s : LState) : LState :=
  if jsTrim orderRaw = "" then s
  else
    let s := appendMsgO ("Consultar pedido: " ++ htmlEscape orderRaw) "user" s
    let s := setLoadingOrders true s
    let s := { s with requests := s.requests ++ [orderStatusRequest s.backend orderRaw] }
    match o with
    | Except.error _ =>
      setLoadingOrders false (appendMsgO "Error de red consultando el estatus." "bot" s)
    | Except.ok (respOk, dataOk, ans) =>
      if respOk ∧ dataOk then
        setLoadingOrders false (appendMsgO (ans.getD "Sin datos.") "bot" s)
      else
        setLoadingOrders false
          (appendMsgO "No fue posible consultar el estatus en este momento." "bot" s)

end Part001

/-! ## `src/unnamed/part_002` and `src/unnamed/part_004` — two-mode versions

Both share the `chatState` `{ mode, currentQuery, currentPage,
pagination, isLoading }`, `POST /api/chat` with `{message, page,
per_page: 10}` and `POST /api/orders` with `{order}`, `switchMode`, and
`updatePagination`.  They differ only in which chat bubbles they render.
The state type below is shared; every operation is embedded once per
version, from its own source text. -/

/-- The pagination object of part_002/part_004:
`{ page, total_pages, total, has_prev, has_next }`. -/
structure Pagination where
  page : Int
  total_pages : Int
  total : Int
  has_prev : Bool
  has_next : Bool
  deriving DecidableEq

/-- A `/api/chat` response as consumed by `performSearch` in
part_002/part_004: `answer` (kept when truthy), `products` (when an
array) and `pagination`.  A non-object or null response behaves exactly
like all three fields absent, so it is represented that way. -/
structure SearchRes where
  answer : Option String
  products : Option (List Product)
  pagination : Option Pagination

/-- A `/api/orders` response as consumed by `performOrderLookup`:
`order` (when truthy), `items` (when an array) and `answer`. -/
structure OrderRes where
  order : Option String
  items : Option (List OrderItem)
  answer : Option String

/-- A pending fetch whose `.then`/`.catch` continuation has not run yet:
a product search (with the captured `isNewSearch`) or an order lookup
(with the captured `query`). -/
inductive Flight where
  | search (isNewSearch : Bool)
  | order (query : String)

/-- State of a two-mode widget: the `chatState` object plus the DOM
pieces the code mutates.  `inFlight` holds the pending fetch
continuation, `requests` logs every dispatched request in order. -/
structure MState where
  backend : String
  mode : String
  currentQuery : String
  currentPage : Int
  pagination : Option Pagination
  isLoading : Bool
  body : List BodyItem
  loadingMsg : Option String
  submitDisabled : Bool
  submitLabel : String
  inputPlaceholder : String
  pagiDisplay : String
  pagiInfo : String
  prevDisabled : Bool
  nextDisabled : Bool
  tabActive : String
  inFlight : Option Flight
  requests : List HttpRequest

/-- User/browser events a two-mode widget reacts to.  A `fetch` is split
into its synchronous dispatch (inside `submit`/click events) and the
later delivery of its result (`searchResponse` / `orderResponse`, where
`.error` is a rejected fetch or a failing `r.json()`). -/
inductive MEvent where
  | tabProducts
  | tabOrders
  | submit (raw : String)
  | clickPrev
  | clickNext
  | searchResponse (r : Except Unit SearchRes)
  | orderResponse (r : Except Unit OrderRes)

namespace Part002

/-- The `/api/chat` fetch of `performSearch` (part_002 lines 258–266):
POST with body `{ message: chatState.currentQuery, page, per_page: 10 }`. -/
def chatRequest (backend message : String) (page : Int) : HttpRequest :=
  { method := "POST", contentType := "application/json",
    url := backend ++ "/api/chat", body := ReqBody.msgPagePer message page 10 }

/-- The `/api/orders` fetch of `performOrderLookup` (part_002 lines
317–321): POST with body `{ order: query }`. -/
def orderRequest (backend query : String) : HttpRequest :=
  { method := "POST", contentType := "application/json",
    url := backend ++ "/api/orders", body := ReqBody.order query }

/-- Function `appendMsg` (part_002 lines 78–85): class
`mx-msg mx-user` or `mx-msg mx-bot`. -/
def appendMsg (text from_ : String) (s : MState) : MState :=
  { s with body := s.body ++
      [BodyItem.msg text (if from_ = "user" then "mx-msg mx-user" else "mx-msg mx-bot")] }

/-- Function `showLoading` (part_002 lines 87–95); call sites always pass
an explicit text. -/
def showLoading (text : Option String) (s : MState) : MState :=
  { s with loadingMsg := some (text.getD
      (if s.mode = "orders" then "Consultando pedido" else "Buscando productos")) }

/-- Function `hideLoading` (part_002 lines 97–100). -/
def hideLoading (s : MState) : MState :=
  { s with loadingMsg := none }

/-- Function `clearBody` (part_002 lines 73–76): `innerHTML = ''` wipes
the whole body, including any loading indicator inside it. -/
def clearBody (s : MState) : MState :=
  { s with body := [], loadingMsg := none }

/-- Drop the first `.mx-list` element
(`body.querySelector('.mx-list').remove()`). -/
def removeFirstList : List BodyItem → List BodyItem
  | [] => []
  | BodyItem.products _ :: rest => rest
  | x :: rest => x :: removeFirstList rest

/-- Function `appendProducts` (part_002 lines 135–150): nothing for an
empty list; on a new search the previous card list is removed first. -/
def appendProducts (list : List Product) (isNewSearch : Bool) (s : MState) : MState :=
  if list.isEmpty then s
  else
    let body := if isNewSearch then removeFirstList s.body else s.body
    { s with body := body ++ [BodyItem.products list] }

/-- Function `updatePagination` (part_002 lines 153–171): hide and clear
when not in products mode, no pagination object, or at most one page;
otherwise show the bar, refresh info/disabled and store the object. -/
def updatePagination (pagination : Option Pagination) (s : MState) : MState :=
  match pagination with
  | none => { s with pagiDisplay := "none", pagination := none }
  | some p =>
    if s.mode ≠ "products" ∨ p.total_pages ≤ 1 then
      { s with pagiDisplay := "none", pagination := none }
    else
      { s with pagiDisplay := "flex",
               pagiInfo := "Página " ++ toString p.page ++ " de "
                 ++ toString p.total_pages ++ " (" ++ toString p.total ++ " productos)",
               prevDisabled := !p.has_prev, nextDisabled := !p.has_next,
               pagination := some p }

/-- Function `renderOrders` (part_002 lines 182–238): summary bubble when
the order number is truthy, then the item cards, or the fallback text
when there are no items. -/
def renderOrders (orderNo : String) (items : List OrderItem)
    (fallbackAnswer : Option String) (s : MState) : MState :=
  let s := if orderNo ≠ "" then appendMsg ("Resumen del pedido #" ++ orderNo) "bot" s else s
  if items.isEmpty then
    match fallbackAnswer with
    | some a => appendMsg a "bot" s
    | none => appendMsg "No encontramos información con ese número de pedido. Verifica el número tal como aparece en tu comprobante." "bot" s
  else
    { s with body := s.body ++ [BodyItem.orders items] }

/-- The synchronous prefix of `performSearch` (part_002 lines 241–266),
up to and including the `fetch` dispatch: loading flag and button, state
update depending on `isNewSearch`, then the POST (whose `message` is the
just-updated `chatState.currentQuery`). -/
def searchStart (query : String) (page : Int) (isNewSearch : Bool) (s : MState) : MState :=
  let s := { s with isLoading := true, submitDisabled := true, submitLabel := "Buscando..." }
  let s :=
    if isNewSearch then
      showLoading (some "Buscando productos") { s with currentQuery := query, currentPage := 1 }
    else
      { s with currentPage := page }
  { s with inFlight := some (Flight.search isNewSearch),
           requests := s.requests ++ [chatRequest s.backend s.currentQuery page] }

/-- The `.then` continuation of `performSearch` (part_002 lines 267–295). -/
def searchThen (res : SearchRes) (isNewSearch : Bool) (s : MState) : MState :=
  let s := hideLoading s
  let s := { s with isLoading := false, submitDisabled := false,
                    submitLabel := if s.mode = "orders" then "Consultar" else "Enviar",
                    inFlight := none }
  match res.products with
  | some prods =>
    let s :=
      if isNewSearch then
        match res.answer with
        | some a => appendMsg a "bot" s
        | none => appendMsg "Aquí tienes lo que encontré:" "bot" s
      else s
    if 0 < prods.length then
      updatePagination res.pagination (appendProducts prods isNewSearch s)
    else
      updatePagination none
        (appendMsg "No encontré resultados para tu búsqueda. Prueba con: “sensor agua tinaco”, “divisor hdmi 1×4”, “soporte pared 55\"”, “control Samsung”, “cable RCA audio video”." "bot" s)
  | none =>
    let s :=
      if isNewSearch then
        appendMsg (res.answer.getD "No encontré productos que coincidan con tu búsqueda.") "bot" s
      else s
    updatePagination none s

/-- The `.catch` continuation of `performSearch` (part_002 lines 296–304). -/
def searchCatch (s : MState) : MState :=
  let s := hideLoading s
  let s := { s with isLoading := false, submitDisabled := false,
                    submitLabel := if s.mode = "orders" then "Consultar" else "Enviar",
                    inFlight := none }
  updatePagination none
    (appendMsg "Hubo un problema al buscar productos. Intenta de nuevo." "bot" s)

/-- Function `performSearch` (part_002 lines 241–305) with the fetch
resolved atomically by the oracle. -/
def performSearch (query : String) (page : Int) (isNewSearch : Bool)
    (o : Except Unit SearchRes) (s : MState) : MState :=
  if s.isLoading then s
  else
    let s := searchStart query page isNewSearch s
    match o with
    | Except.ok res => searchThen res isNewSearch s
    | Except.error _ => searchCatch s

/-- The synchronous prefix of `performOrderLookup` (part_002 lines
308–321), up to and including the `fetch` dispatch. -/
def orderStart (query : String) (s : MState) : MState :=
  let s := { s with isLoading := true, submitDisabled := true, submitLabel := "Consultando..." }
  let s := showLoading (some "Consultando pedido") s
  { s with inFlight := some (Flight.order query),
           requests := s.requests ++ [orderRequest s.backend query] }

/-- The `.then` continuation of `performOrderLookup` (part_002 lines
322–336); always ends with `updatePagination(null)`. -/
def orderThen (query : String) (res : OrderRes) (s : MState) : MState :=
  let s := hideLoading s
  let s := { s with isLoading := false, submitDisabled := false,
                    submitLabel := "Consultar", inFlight := none }
  let orderNo := res.order.getD query
  let s := renderOrders orderNo (res.items.getD []) res.answer s
  updatePagination none s

/-- The `.catch` continuation of `performOrderLookup` (part_002 lines
337–345). -/
def orderCatch (s : MState) : MState :=
  let s := hideLoading s
  let s := { s with isLoading := false, submitDisabled := false,
                    submitLabel := "Consultar", inFlight := none }
  updatePagination none
    (appendMsg "Hubo un problema al consultar tu pedido. Intenta nuevamente en unos segundos." "bot" s)

/-- Function `performOrderLookup` (part_002 lines 308–346) with the
fetch resolved atomically by the oracle. -/
def performOrderLookup (query : String) (o : Except Unit OrderRes) (s : MState) : MState :=
  if s.isLoading then s
  else
    let s := orderStart query s
    match o with
    | Except.ok res => orderThen query res s
    | Except.error _ => orderCatch s

/-- Function `switchMode` (part_002 lines 349–384). -/
def switchMode (mode : String) (s : MState) : MState :=
  if mode = s.mode then s
  else
    let s := { s with mode := mode, currentQuery := "", currentPage := 1,
                      pagination := none,
                      tabActive := if mode = "products" then "products" else "orders" }
    let s := clearBody s
    if mode = "products" then
      updatePagination none
        (appendMsg "¿Qué producto estás buscando? 🔍" "bot"
          { s with inputPlaceholder := "Ej. sensor agua tinaco, control Sony, soporte 55 pulgadas",
                   submitLabel := "Enviar" })
    else
      updatePagination none
        (appendMsg "Ingresa aquí tu número de pedido para conocer tu estatus." "bot"
          { s with inputPlaceholder := "Ingresa tu número de pedido (ej. 0000 o #0000)",
                   submitLabel := "Consultar" })

/-- The event step of part_002: tab clicks call `switchMode` with the
literals `'products'`/`'orders'` (lines 395–396), `submit` (lines
398–412) trims, guards, renders the user bubble and dispatches by mode,
the pagination buttons (lines 414–428) guard on mode, the stored
pagination object and `isLoading`, and a response event runs the pending
continuation. -/
def step (s : MState) (e : MEvent) : MState :=
  match e with
  | MEvent.tabProducts => switchMode "products" s
  | MEvent.tabOrders => switchMode "orders" s
  | MEvent.submit raw =>
    let q := jsTrim raw
    if q = "" then s
    else if s.isLoading then s
    else
      let s := appendMsg q "user" s
      if s.mode = "products" then
        searchStart q 1 true s
      else
        orderStart q s
  | MEvent.clickPrev =>
    if s.mode ≠ "products" then s
    else
      match s.pagination with
      | some p =>
        if p.has_prev ∧ ¬s.isLoading then
          searchStart s.currentQuery (s.currentPage - 1) false s
        else s
      | none => s
  | MEvent.clickNext =>
    if s.mode ≠ "products" then s
    else
      match s.pagination with
      | some p =>
        if p.has_next ∧ ¬s.isLoading then
          searchStart s.currentQuery (s.currentPage + 1) false s
        else s
      | none => s
  | MEvent.searchResponse r =>
    match s.inFlight with
    | some (Flight.search isNew) =>
      (match r with
       | Except.ok res => searchThen res isNew s
       | Except.error _ => searchCatch s)
    | _ => s
  | MEvent.orderResponse r =>
    match s.inFlight with
    | some (Flight.order q) =>
      (match r with
       | Except.ok res => orderThen q res s
       | Except.error _ => orderCatch s)
    | _ => s

/-- Initial state after `DOMContentLoaded` (part_002 lines 16–23, 35–64):
products mode, empty search state, the welcome bubble, hidden pagination
bar. -/
def init (backend : String) : MState :=
  { backend := backend, mode := "products", currentQuery := "", currentPage := 1,
    pagination := none, isLoading := false,
    body := [BodyItem.msg "¡Hola! Soy Maxter, tu asistente de compras de Master Electronics. ¿Qué producto estás buscando? 🔍" "mx-msg mx-bot"],
    loadingMsg := none, submitDisabled := false, submitLabel := "Enviar",
    inputPlaceholder := "Ej. sensor agua tinaco, control Sony, soporte 55 pulgadas",
    pagiDisplay := "none", pagiInfo := "Página 1 de 1",
    prevDisabled := false, nextDisabled := false, tabActive := "products",
    inFlight := none, requests := [] }

/-- Run a sequence of events from the initial state. -/
def run (backend : String) (evs : List MEvent) : MState :=
  evs.foldl step (init backend)

end Part002

namespace Part004

/-- The `/api/chat` fetch of `performSearch` (part_004 lines 255–263). -/
def chatRequest (backend message : String) (page : Int) : HttpRequest :=
  { method := "POST", contentType := "application/json",
    url := backend ++ "/api/chat", body := ReqBody.msgPagePer message page 10 }

/-- The `/api/orders` fetch of `performOrderLookup` (part_004 lines
312–316). -/
def orderRequest (backend query : String) : HttpRequest :=
  { method := "POST", contentType := "application/json",
    url := backend ++ "/api/orders", body := ReqBody.order query }

/-- Function `appendMsg` (part_004 lines 75–82): always class `mx-msg`
(part_004 has no user/bot distinction). -/
def appendMsg (text : String) (s : MState) : MState :=
  { s with body := s.body ++ [BodyItem.msg text "mx-msg"] }

/-- Function `showLoading` (part_004 lines 84–92). -/
def showLoading (text : Option String) (s : MState) : MState :=
  { s with loadingMsg := some (text.getD
      (if s.mode = "orders" then "Consultando pedido" else "Buscando productos")) }

/-- Function `hideLoading` (part_004 lines 94–97). -/
def hideLoading (s : MState) : MState :=
  { s with loadingMsg := none }

/-- Function `clearBody` (part_004 lines 70–73). -/
def clearBody (s : MState) : MState :=
  { s with body := [], loadingMsg := none }

/-- Drop the first `.mx-list` element (part_004 lines 127–130). -/
def removeFirstList : List BodyItem → List BodyItem
  | [] => []
  | BodyItem.products _ :: rest => rest
  | x :: rest => x :: removeFirstList rest

/-- Function `appendProducts` (part_004 lines 123–136). -/
def appendProducts (list : List Product) (isNewSearch : Bool) (s : MState) : MState :=
  if list.isEmpty then s
  else
    let body := if isNewSearch then removeFirstList s.body else s.body
    { s with body := body ++ [BodyItem.products list] }

/-- Function `updatePagination` (part_004 lines 138–158), identical in
logic to part_002's. -/
def updatePagination (pagination : Option Pagination) (s : MState) : MState :=
  match pagination with
  | none => { s with pagiDisplay := "none", pagination := none }
  | some p =>
    if s.mode ≠ "products" ∨ p.total_pages ≤ 1 then
      { s with pagiDisplay := "none", pagination := none }
    else
      { s with pagiDisplay := "flex",
               pagiInfo := "Página " ++ toString p.page ++ " de "
                 ++ toString p.total_pages ++ " (" ++ toString p.total ++ " productos)",
               prevDisabled := !p.has_prev, nextDisabled := !p.has_next,
               pagination := some p }

/-- Function `renderOrders` (part_004 lines 169–234). -/
def renderOrders (orderNo : String) (items : List OrderItem)
    (fallbackAnswer : Option String) (s : MState) : MState :=
  let s := if orderNo ≠ "" then appendMsg ("Resumen del pedido #" ++ orderNo) s else s
  if items.isEmpty then
    match fallbackAnswer with
    | some a => appendMsg a s
    | none => appendMsg "No encontramos información con ese número de pedido. Verifica el número tal como aparece en tu comprobante." s
  else
    { s with body := s.body ++ [BodyItem.orders items] }

/-- The synchronous prefix of `performSearch` (part_004 lines 237–263). -/
def searchStart (query : String) (page : Int) (isNewSearch : Bool) (s : MState) : MState :=
  let s := { s with isLoading := true, submitDisabled := true, submitLabel := "Buscando..." }
  let s :=
    if isNewSearch then
      showLoading (some "Buscando productos") { s with currentQuery := query, currentPage := 1 }
    else
      { s with currentPage := page }
  { s with inFlight := some (Flight.search isNewSearch),
           requests := s.requests ++ [chatRequest s.backend s.currentQuery page] }

/-- The `.then` continuation of `performSearch` (part_004 lines 264–290):
unlike part_002, the answer bubble is only rendered when there are
products, and only when the answer is truthy. -/
def searchThen (res : SearchRes) (isNewSearch : Bool) (s : MState) : MState :=
  let s := hideLoading s
  let s := { s with isLoading := false, submitDisabled := false,
                    submitLabel := if s.mode = "orders" then "Consultar" else "Enviar",
                    inFlight := none }
  match res.products with
  | some prods =>
    if 0 < prods.length then
      let s :=
        if isNewSearch then
          match res.answer with
          | some a => appendMsg a s
          | none => s
        else s
      updatePagination res.pagination (appendProducts prods isNewSearch s)
    else
      let s :=
        if isNewSearch then
          appendMsg "No encontré resultados para tu búsqueda. Intenta con palabras clave más específicas como 'sensor agua tinaco', 'divisor hdmi 1×4', 'soporte pared 55\"', 'control Samsung' o 'cable RCA audio video'." s
        else s
      updatePagination none s
  | none =>
    let s :=
      if isNewSearch then
        appendMsg (res.answer.getD "No encontré productos que coincidan con tu búsqueda.") s
      else s
    updatePagination none s

/-- The `.catch` continuation of `performSearch` (part_004 lines 291–299). -/
def searchCatch (s : MState) : MState :=
  let s := hideLoading s
  let s := { s with isLoading := false, submitDisabled := false,
                    submitLabel := if s.mode = "orders" then "Consultar" else "Enviar",
                    inFlight := none }
  updatePagination none
    (appendMsg "Hubo un problema al buscar productos. Intenta de nuevo." s)

/-- Function `performSearch` (part_004 lines 237–300) with the fetch
resolved atomically by the oracle. -/
def performSearch (query : String) (page : Int) (isNewSearch : Bool)
    (o : Except Unit SearchRes) (s : MState) : MState :=
  if s.isLoading then s
  else
    let s := searchStart query page isNewSearch s
    match o with
    | Except.ok res => searchThen res isNewSearch s
    | Except.error _ => searchCatch s

/-- The synchronous prefix of `performOrderLookup` (part_004 lines
303–316). -/
def orderStart (query : String) (s : MState) : MState :=
  let s := { s with isLoading := true, submitDisabled := true, submitLabel := "Consultando..." }
  let s := showLoading (some "Consultando pedido") s
  { s with inFlight := some (Flight.order query),
           requests := s.requests ++ [orderRequest s.backend query] }

/-- The `.then` continuation of `performOrderLookup` (part_004 lines
317–332). -/
def orderThen (query : String) (res : OrderRes) (s : MState) : MState :=
  let s := hideLoading s
  let s := { s with isLoading := false, submitDisabled := false,
                    submitLabel := "Consultar", inFlight := none }
  let orderNo := res.order.getD query
  let s := renderOrders orderNo (res.items.getD []) res.answer s
  updatePagination none s

/-- The `.catch` continuation of `performOrderLookup` (part_004 lines
333–341). -/
def orderCatch (s : MState) : MState :=
  let s := hideLoading s
  let s := { s with isLoading := false, submitDisabled := false,
                    submitLabel := "Consultar", inFlight := none }
  updatePagination none
    (appendMsg "Hubo un problema al consultar tu pedido. Intenta nuevamente en unos segundos." s)

/-- Function `performOrderLookup` (part_004 lines 303–342) with the
fetch resolved atomically by the oracle. -/
def performOrderLookup (query : String) (o : Except Unit OrderRes) (s : MState) : MState :=
  if s.isLoading then s
  else
    let s := orderStart query s
    match o with
    | Except.ok res => orderThen query res s
    | Except.error _ => orderCatch s

/-- Function `switchMode` (part_004 lines 345–380), identical in logic to
part_002's (the rendered bubbles carry no role class). -/
def switchMode (mode : String) (s : MState) : MState :=
  if mode = s.mode then s
  else
    let s := { s with mode := mode, currentQuery := "", currentPage := 1,
                      pagination := none,
                      tabActive := if mode = "products" then "products" else "orders" }
    let s := clearBody s
    if mode = "products" then
      updatePagination none
        (appendMsg "¿Qué producto estás buscando? 🔍"
          { s with inputPlaceholder := "Ej. sensor agua tinaco, control Sony, soporte 55 pulgadas",
                   submitLabel := "Enviar" })
    else
      updatePagination none
        (appendMsg "Ingresa aquí tu número de pedido para conocer tu estatus."
          { s with inputPlaceholder := "Ingresa tu número de pedido (ej. 0000 o #0000)",
                   submitLabel := "Consultar" })

/-- The event step of part_004 (listeners at lines 383–429).  Unlike
part_002, the submit handler renders no user bubble. -/
def step (s : MState) (e : MEvent) : MState :=
  match e with
  | MEvent.tabProducts => switchMode "products" s
  | MEvent.tabOrders => switchMode "orders" s
  | MEvent.submit raw =>
    let q := jsTrim raw
    if q = "" then s
    else if s.isLoading then s
    else if s.mode = "products" then
      searchStart q 1 true s
    else
      orderStart q s
  | MEvent.clickPrev =>
    if s.mode ≠ "products" then s
    else
      match s.pagination with
      | some p =>
        if p.has_prev ∧ ¬s.isLoading then
          searchStart s.currentQuery (s.currentPage - 1) false s
        else s
      | none => s
  | MEvent.clickNext =>
    if s.mode ≠ "products" then s
    else
      match s.pagination with
      | some p =>
        if p.has_next ∧ ¬s.isLoading then
          searchStart s.currentQuery (s.currentPage + 1) false s
        else s
      | none => s
  | MEvent.searchResponse r =>
    match s.inFlight with
    | some (Flight.search isNew) =>
      (match r with
       | Except.ok res => searchThen res isNew s
       | Except.error _ => searchCatch s)
    | _ => s
  | MEvent.orderResponse r =>
    match s.inFlight with
    | some (Flight.order q) =>
      (match r with
       | Except.ok res => orderThen q res s
       | Except.error _ => orderCatch s)
    | _ => s

/-- Initial state after `DOMContentLoaded` (part_004 lines 16–22, 34–58):
the welcome bubble is static markup with class `mx-msg`. -/
def init (backend : String) : MState :=
  { backend := backend, mode := "products", currentQuery := "", currentPage := 1,
    pagination := none, isLoading := false,
    body := [BodyItem.msg "¡Hola! Soy Maxter, tu asistente de compras de Master Electronics. ¿Qué producto estás buscando? 🔍" "mx-msg"],
    loadingMsg := none, submitDisabled := false, submitLabel := "Enviar",
    inputPlaceholder := "Ej. sensor agua tinaco, control Sony, soporte 55 pulgadas",
    pagiDisplay := "none", pagiInfo := "Página 1 de 1",
    prevDisabled := false, nextDisabled := false, tabActive := "products",
    inFlight := none, requests := [] }

/-- Run a sequence of events from the initial state. -/
def run (backend : String) (evs : List MEvent) : MState :=
  evs.foldl step (init backend)

end Part004

/-! ## Helper lemmas -/

/-- A predicate preserved by every step holds after any `foldl` run. -/
theorem foldlPreserves {α β : Type} {f : α → β → α} {P : α → Prop}
    (hstep : ∀ x b, P x → P (f x b)) :
    ∀ (l : List β) (a : α), P a → P (l.foldl f a) := by
  intro l
  induction l with
  | nil => intro a ha; exact ha
  | cons b bs ih => intro a ha; exact ih (f a b) (hstep a b ha)

/-- Length of the impressions item list. -/
theorem impItems_length : ∀ (i : Nat) (l : List Product),
    (WidgetJs.impItems i l).length = l.length := by
  intro i l
  induction l generalizing i with
  | nil => rfl
  | cons p rest ih => simp [WidgetJs.impItems, ih]

/-- Entry `k` of the impressions item list built with offset `off` is the
reduction of product `k`, carrying index `off + k`. -/
theorem impItems_get : ∀ (l : List Product) (off k : Nat)
    (hk : k < (WidgetJs.impItems off l).length) (hl : k < l.length),
    (WidgetJs.impItems off l).get ⟨k, hk⟩ =
      JVal.o [("index", JVal.i ((off + k : Nat) : Int)),
              ("title", JVal.s (l.get ⟨k, hl⟩).title),
              ("price", JVal.s (l.get ⟨k, hl⟩).price),
              ("product_url", JVal.s (l.get ⟨k, hl⟩).product_url)] := by
  intro l
  induction l with
  | nil => intro off k hk hl; exact absurd hl (by simp)
  | cons p rest ih =>
    intro off k hk hl
    cases k with
    | zero => simp [WidgetJs.impItems]
    | succ k =>
      have hk2 : k < (WidgetJs.impItems (off + 1) rest).length := by
        simpa [WidgetJs.impItems] using hk
      have hl2 : k < rest.length := by simpa using hl
      have := ih (off + 1) k hk2 hl2
      simpa [WidgetJs.impItems, Nat.add_assoc, Nat.add_comm 1 k] using this

/-! ### Projection lemmas for `updatePagination` (both two-mode versions)

The only embedded operation whose result does not reduce by plain record
projection is `updatePagination` (it matches on its argument); these
lemmas record the fields it leaves untouched, and that it always hides
the bar outside products mode. -/

theorem p2_upd_mode (p : Option Pagination) (s : MState) :
    (Part002.updatePagination p s).mode = s.mode := by
  cases p with
  | none => rfl
  | some q =>
    by_cases h : s.mode ≠ "products" ∨ q.total_pages ≤ 1 <;>
      simp [Part002.updatePagination, h]

theorem p2_upd_currentQuery (p : Option Pagination) (s : MState) :
    (Part002.updatePagination p s).currentQuery = s.currentQuery := by
  cases p with
  | none => rfl
  | some q =>
    by_cases h : s.mode ≠ "products" ∨ q.total_pages ≤ 1 <;>
      simp [Part002.updatePagination, h]

theorem p2_upd_currentPage (p : Option Pagination) (s : MState) :
    (Part002.updatePagination p s).currentPage = s.currentPage := by
  cases p with
  | none => rfl
  | some q =>
    by_cases h : s.mode ≠ "products" ∨ q.total_pages ≤ 1 <;>
      simp [Part002.updatePagination, h]

theorem p2_upd_isLoading (p : Option Pagination) (s : MState) :
    (Part002.updatePagination p s).isLoading = s.isLoading := by
  cases p with
  | none => rfl
  | some q =>
    by_cases h : s.mode ≠ "products" ∨ q.total_pages ≤ 1 <;>
      simp [Part002.updatePagination, h]

theorem p2_upd_requests (p : Option Pagination) (s : MState) :
    (Part002.updatePagination p s).requests = s.requests := by
  cases p with
  | none => rfl
  | some q =>
    by_cases h : s.mode ≠ "products" ∨ q.total_pages ≤ 1 <;>
      simp [Part002.updatePagination, h]

theorem p2_upd_inFlight (p : Option Pagination) (s : MState) :
    (Part002.updatePagination p s).inFlight = s.inFlight := by
  cases p with
  | none => rfl
  | some q =>
    by_cases h : s.mode ≠ "products" ∨ q.total_pages ≤ 1 <;>
      simp [Part002.updatePagination, h]

theorem p2_upd_hide (p : Option Pagination) (s : MState) (h : s.mode ≠ "products") :
    (Part002.updatePagination p s).pagiDisplay = "none" ∧
      (Part002.updatePagination p s).pagination = none := by
  cases p with
  | none => exact ⟨rfl, rfl⟩
  | some q => simp [Part002.updatePagination, h]

theorem p4_upd_mode (p : Option Pagination) (s : MState) :
    (Part004.updatePagination p s).mode = s.mode := by
  cases p with
  | none => rfl
  | some q =>
    by_cases h : s.mode ≠ "products" ∨ q.total_pages ≤ 1 <;>
      simp [Part004.updatePagination, h]

theorem p4_upd_currentQuery (p : Option Pagination) (s : MState) :
    (Part004.updatePagination p s).currentQuery = s.currentQuery := by
  cases p with
  | none => rfl
  | some q =>
    by_cases h : s.mode ≠ "products" ∨ q.total_pages ≤ 1 <;>
      simp [Part004.updatePagination, h]

theorem p4_upd_currentPage (p : Option Pagination) (s : MState) :
    (Part004.updatePagination p s).currentPage = s.currentPage := by
  cases p with
  | none => rfl
  | some q =>
    by_cases h : s.mode ≠ "products" ∨ q.total_pages ≤ 1 <;>
      simp [Part004.updatePagination, h]

theorem p4_upd_isLoading (p : Option Pagination) (s : MState) :
    (Part004.updatePagination p s).isLoading = s.isLoading := by
  cases p with
  | none => rfl
  | some q =>
    by_cases h : s.mode ≠ "products" ∨ q.total_pages ≤ 1 <;>
      simp [Part004.updatePagination, h]

theorem p4_upd_requests (p : Option Pagination) (s : MState) :
    (Part004.updatePagination p s).requests = s.requests := by
  cases p with
  | none => rfl
  | some q =>
    by_cases h : s.mode ≠ "products" ∨ q.total_pages ≤ 1 <;>
      simp [Part004.updatePagination, h]

theorem p4_upd_inFlight (p : Option Pagination) (s : MState) :
    (Part004.updatePagination p s).inFlight = s.inFlight := by
  cases p with
  | none => rfl
  | some q =>
    by_cases h : s.mode ≠ "products" ∨ q.total_pages ≤ 1 <;>
      simp [Part004.updatePagination, h]

theorem p4_upd_hide (p : Option Pagination) (s : MState) (h : s.mode ≠ "products") :
    (Part004.updatePagination p s).pagiDisplay = "none" ∧
      (Part004.updatePagination p s).pagination = none := by
  cases p with
  | none => exact ⟨rfl, rfl⟩
  | some q => simp [Part004.updatePagination, h]

/-- The stored pagination object after `updatePagination` is the same
function of the current mode and the argument in both versions. -/
theorem upd_pagination_eq (p : Option Pagination) (s t : MState) (h : s.mode = t.mode) :
    (Part002.updatePagination p s).pagination = (Part004.updatePagination p t).pagination := by
  cases p with
  | none => rfl
  | some q =>
    by_cases hc : t.mode ≠ "products" ∨ q.total_pages ≤ 1
    · simp [Part002.updatePagination, Part004.updatePagination, hc, h]
    · simp [Part002.updatePagination, Part004.updatePagination, hc, h]

/-! ### Preservation lemmas for the continuations of the two-mode flows -/

theorem p2_searchThen_isLoading (res : SearchRes) (n : Bool) (s : MState) :
    (Part002.searchThen res n s).isLoading = false := by
  simp only [Part002.searchThen]
  cases hres : res.products with
  | none =>
    cases n <;> simp [Part002.appendMsg, Part002.hideLoading, p2_upd_isLoading]
  | some prods =>
    cases prods <;> cases n <;> cases hans : res.answer <;>
      simp [Part002.appendMsg, Part002.appendProducts, Part002.hideLoading,
        p2_upd_isLoading]

theorem p2_searchCatch_isLoading (s : MState) :
    (Part002.searchCatch s).isLoading = false := by
  simp [Part002.searchCatch, Part002.appendMsg, Part002.hideLoading, p2_upd_isLoading]

theorem p2_orderThen_isLoading (q : String) (res : OrderRes) (s : MState) :
    (Part002.orderThen q res s).isLoading = false := by
  simp only [Part002.orderThen, Part002.renderOrders]
  cases hi : res.items <;> cases ha : res.answer <;> cases ho : res.order <;>
    simp [Part002.appendMsg, Part002.hideLoading, p2_upd_isLoading] <;>
    first
    | rfl
    | (split <;> rfl)
    | (split <;> first | rfl | (split <;> rfl))

theorem p2_orderCatch_isLoading (s : MState) :
    (Part002.orderCatch s).isLoading = false := by
  simp [Part002.orderCatch, Part002.appendMsg, Part002.hideLoading, p2_upd_isLoading]

theorem p4_searchThen_isLoading (res : SearchRes) (n : Bool) (s : MState) :
    (Part004.searchThen res n s).isLoading = false := by
  simp only [Part004.searchThen]
  cases hres : res.products with
  | none =>
    cases n <;> simp [Part004.appendMsg, Part004.hideLoading, p4_upd_isLoading]
  | some prods =>
    cases prods <;> cases n <;> cases hans : res.answer <;>
      simp [Part004.appendMsg, Part004.appendProducts, Part004.hideLoading,
        p4_upd_isLoading]

theorem p4_searchCatch_isLoading (s : MState) :
    (Part004.searchCatch s).isLoading = false := by
  simp [Part004.searchCatch, Part004.appendMsg, Part004.hideLoading, p4_upd_isLoading]

theorem p4_orderThen_isLoading (q : String) (res : OrderRes) (s : MState) :
    (Part004.orderThen q res s).isLoading = false := by
  simp only [Part004.orderThen, Part004.renderOrders]
  cases hi : res.items <;> cases ha : res.answer <;> cases ho : res.order <;>
    simp [Part004.appendMsg, Part004.hideLoading, p4_upd_isLoading] <;>
    first
    | rfl
    | (split <;> rfl)
    | (split <;> first | rfl | (split <;> rfl))

theorem p4_orderCatch_isLoading (s : MState) :
    (Part004.orderCatch s).isLoading = false := by
  simp [Part004.orderCatch, Part004.appendMsg, Part004.hideLoading, p4_upd_isLoading]

theorem p2_searchThen_fields (res : SearchRes) (n : Bool) (t : MState) :
    (Part002.searchThen res n t).requests = t.requests ∧
    (Part002.searchThen res n t).currentQuery = t.currentQuery ∧
    (Part002.searchThen res n t).currentPage = t.currentPage := by
  simp only [Part002.searchThen]
  cases hres : res.products with
  | none =>
    cases n <;>
      simp [Part002.appendMsg, Part002.hideLoading, p2_upd_requests,
        p2_upd_currentQuery, p2_upd_currentPage]
  | some prods =>
    cases prods <;> cases n <;> cases hans : res.answer <;>
      simp [Part002.appendMsg, Part002.appendProducts, Part002.hideLoading,
        p2_upd_requests, p2_upd_currentQuery, p2_upd_currentPage]

theorem p4_searchThen_fields (res : SearchRes) (n : Bool) (t : MState) :
    (Part004.searchThen res n t).requests = t.requests ∧
    (Part004.searchThen res n t).currentQuery = t.currentQuery ∧
    (Part004.searchThen res n t).currentPage = t.currentPage := by
  simp only [Part004.searchThen]
  cases hres : res.products with
  | none =>
    cases n <;>
      simp [Part004.appendMsg, Part004.hideLoading, p4_upd_requests,
        p4_upd_currentQuery, p4_upd_currentPage]
  | some prods =>
    cases prods <;> cases n <;> cases hans : res.answer <;>
      simp [Part004.appendMsg, Part004.appendProducts, Part004.hideLoading,
        p4_upd_requests, p4_upd_currentQuery, p4_upd_currentPage]

theorem p2_searchCatch_fields (t : MState) :
    (Part002.searchCatch t).requests = t.requests ∧
    (Part002.searchCatch t).currentQuery = t.currentQuery ∧
    (Part002.searchCatch t).currentPage = t.currentPage ∧
    (Part002.searchCatch t).pagination = none := by
  simp [Part002.searchCatch, Part002.appendMsg, Part002.hideLoading,
    Part002.updatePagination]

theorem p4_searchCatch_fields (t : MState) :
    (Part004.searchCatch t).requests = t.requests ∧
    (Part004.searchCatch t).currentQuery = t.currentQuery ∧
    (Part004.searchCatch t).currentPage = t.currentPage ∧
    (Part004.searchCatch t).pagination = none := by
  simp [Part004.searchCatch, Part004.appendMsg, Part004.hideLoading,
    Part004.updatePagination]

/-- The stored pagination after a search completion is the same function
of the response in both two-mode versions. -/
theorem searchThen_pagination_eq (res : SearchRes) (n : Bool) (t : MState) :
    (Part002.searchThen res n t).pagination = (Part004.searchThen res n t).pagination := by
  simp only [Part002.searchThen, Part004.searchThen]
  cases hres : res.products with
  | none =>
    cases n <;>
      simp [Part002.appendMsg, Part004.appendMsg, Part002.hideLoading, Part004.hideLoading,
        Part002.updatePagination, Part004.updatePagination]
  | some prods =>
    cases prods <;> cases n <;> cases hans : res.answer <;>
      simp only [Part002.appendMsg, Part004.appendMsg, Part002.appendProducts,
        Part004.appendProducts, Part002.hideLoading, Part004.hideLoading,
        List.isEmpty_nil, List.isEmpty_cons, List.length_nil, List.length_cons,
        lt_irrefl, if_true, if_false, ite_true, ite_false, Nat.zero_lt_succ,
        Nat.lt_irrefl, Bool.false_eq_true, Part002.updatePagination,
        Part004.updatePagination] <;>
      first
      | rfl
      | (cases hp : res.pagination with
         | none => rfl
         | some p =>
           by_cases hc : ¬t.mode = "products" ∨ p.total_pages ≤ 1 <;> simp [hc])

/-! ### `switchMode`, start and continuation preservation lemmas -/

theorem p2_switchMode_same (m : String) (s : MState) (h : m = s.mode) :
    Part002.switchMode m s = s := by
  simp [Part002.switchMode, h]

theorem p2_switchMode_reset (m : String) (s : MState) (h : ¬m = s.mode) :
    (Part002.switchMode m s).mode = m ∧
    (Part002.switchMode m s).currentQuery = "" ∧
    (Part002.switchMode m s).currentPage = 1 ∧
    (Part002.switchMode m s).pagination = none ∧
    (Part002.switchMode m s).pagiDisplay = "none" := by
  simp only [Part002.switchMode, if_neg h]
  by_cases hm : m = "products" <;>
    simp [hm, Part002.clearBody, Part002.appendMsg, Part002.updatePagination]

theorem p4_switchMode_same (m : String) (s : MState) (h : m = s.mode) :
    Part004.switchMode m s = s := by
  simp [Part004.switchMode, h]

theorem p4_switchMode_reset (m : String) (s : MState) (h : ¬m = s.mode) :
    (Part004.switchMode m s).mode = m ∧
    (Part004.switchMode m s).currentQuery = "" ∧
    (Part004.switchMode m s).currentPage = 1 ∧
    (Part004.switchMode m s).pagination = none ∧
    (Part004.switchMode m s).pagiDisplay = "none" := by
  simp only [Part004.switchMode, if_neg h]
  by_cases hm : m = "products" <;>
    simp [hm, Part004.clearBody, Part004.appendMsg, Part004.updatePagination]

theorem p2_searchStart_unchanged (q : String) (p : Int) (n : Bool) (t : MState) :
    (Part002.searchStart q p n t).mode = t.mode ∧
    (Part002.searchStart q p n t).pagination = t.pagination ∧
    (Part002.searchStart q p n t).pagiDisplay = t.pagiDisplay := by
  cases n <;> simp [Part002.searchStart, Part002.showLoading]

theorem p2_orderStart_unchanged (q : String) (t : MState) :
    (Part002.orderStart q t).mode = t.mode ∧
    (Part002.orderStart q t).pagination = t.pagination ∧
    (Part002.orderStart q t).pagiDisplay = t.pagiDisplay := by
  simp [Part002.orderStart, Part002.showLoading]

theorem p4_searchStart_unchanged (q : String) (p : Int) (n : Bool) (t : MState) :
    (Part004.searchStart q p n t).mode = t.mode ∧
    (Part004.searchStart q p n t).pagination = t.pagination ∧
    (Part004.searchStart q p n t).pagiDisplay = t.pagiDisplay := by
  cases n <;> simp [Part004.searchStart, Part004.showLoading]

theorem p4_orderStart_unchanged (q : String) (t : MState) :
    (Part004.orderStart q t).mode = t.mode ∧
    (Part004.orderStart q t).pagination = t.pagination ∧
    (Part004.orderStart q t).pagiDisplay = t.pagiDisplay := by
  simp [Part004.orderStart, Part004.showLoading]

theorem p2_searchThen_mode (res : SearchRes) (n : Bool) (t : MState) :
    (Part002.searchThen res n t).mode = t.mode := by
  simp only [Part002.searchThen]
  cases hres : res.products with
  | none =>
    cases n <;> simp [Part002.appendMsg, Part002.hideLoading, p2_upd_mode]
  | some prods =>
    cases prods <;> cases n <;> cases hans : res.answer <;>
      simp [Part002.appendMsg, Part002.appendProducts, Part002.hideLoading, p2_upd_mode]

theorem p2_searchCatch_mode (t : MState) :
    (Part002.searchCatch t).mode = t.mode := by
  simp [Part002.searchCatch, Part002.appendMsg, Part002.hideLoading, p2_upd_mode]

theorem p2_renderOrders_mode (o : String) (i : List OrderItem) (f : Option String)
    (t : MState) : (Part002.renderOrders o i f t).mode = t.mode := by
  simp only [Part002.renderOrders]
  by_cases ho : o ≠ "" <;> cases i <;> cases f <;> simp [ho, Part002.appendMsg]

theorem p2_orderThen_mode (q : String) (res : OrderRes) (t : MState) :
    (Part002.orderThen q res t).mode = t.mode := by
  simp [Part002.orderThen, p2_upd_mode, p2_renderOrders_mode, Part002.hideLoading]

theorem p2_orderCatch_mode (t : MState) :
    (Part002.orderCatch t).mode = t.mode := by
  simp [Part002.orderCatch, Part002.appendMsg, Part002.hideLoading, p2_upd_mode]

theorem p4_searchThen_mode (res : SearchRes) (n : Bool) (t : MState) :
    (Part004.searchThen res n t).mode = t.mode := by
  simp only [Part004.searchThen]
  cases hres : res.products with
  | none =>
    cases n <;> simp [Part004.appendMsg, Part004.hideLoading, p4_upd_mode]
  | some prods =>
    cases prods <;> cases n <;> cases hans : res.answer <;>
      simp [Part004.appendMsg, Part004.appendProducts, Part004.hideLoading, p4_upd_mode]

theorem p4_searchCatch_mode (t : MState) :
    (Part004.searchCatch t).mode = t.mode := by
  simp [Part004.searchCatch, Part004.appendMsg, Part004.hideLoading, p4_upd_mode]

theorem p4_renderOrders_mode (o : String) (i : List OrderItem) (f : Option String)
    (t : MState) : (Part004.renderOrders o i f t).mode = t.mode := by
  simp only [Part004.renderOrders]
  by_cases ho : o ≠ "" <;> cases i <;> cases f <;> simp [ho, Part004.appendMsg]

theorem p4_orderThen_mode (q : String) (res : OrderRes) (t : MState) :
    (Part004.orderThen q res t).mode = t.mode := by
  simp [Part004.orderThen, p4_upd_mode, p4_renderOrders_mode, Part004.hideLoading]

theorem p4_orderCatch_mode (t : MState) :
    (Part004.orderCatch t).mode = t.mode := by
  simp [Part004.orderCatch, Part004.appendMsg, Part004.hideLoading, p4_upd_mode]

theorem p2_searchThen_hidden (res : SearchRes) (n : Bool) (t : MState)
    (h : t.mode ≠ "products") :
    (Part002.searchThen res n t).pagination = none ∧
      (Part002.searchThen res n t).pagiDisplay = "none" := by
  simp only [Part002.searchThen]
  cases hres : res.products with
  | none => cases n <;> cases hans : res.answer <;> exact ⟨rfl, rfl⟩
  | some prods =>
    cases prods <;> cases n <;> cases hans : res.answer <;>
      simp only [Part002.appendMsg, Part002.appendProducts, Part002.hideLoading,
        List.isEmpty_nil, List.isEmpty_cons, List.length_nil, List.length_cons,
        lt_irrefl, if_true, if_false, ite_true, ite_false, Nat.zero_lt_succ,
        Bool.false_eq_true] <;>
      first
      | exact ⟨rfl, rfl⟩
      | (refine ⟨(p2_upd_hide _ _ ?_).2, (p2_upd_hide _ _ ?_).1⟩ <;> exact h)

theorem p4_searchThen_hidden (res : SearchRes) (n : Bool) (t : MState)
    (h : t.mode ≠ "products") :
    (Part004.searchThen res n t).pagination = none ∧
      (Part004.searchThen res n t).pagiDisplay = "none" := by
  simp only [Part004.searchThen]
  cases hres : res.products with
  | none => cases n <;> cases hans : res.answer <;> exact ⟨rfl, rfl⟩
  | some prods =>
    cases prods <;> cases n <;> cases hans : res.answer <;>
      simp only [Part004.appendMsg, Part004.appendProducts, Part004.hideLoading,
        List.isEmpty_nil, List.isEmpty_cons, List.length_nil, List.length_cons,
        lt_irrefl, if_true, if_false, ite_true, ite_false, Nat.zero_lt_succ,
        Bool.false_eq_true] <;>
      first
      | exact ⟨rfl, rfl⟩
      | (refine ⟨(p4_upd_hide _ _ ?_).2, (p4_upd_hide _ _ ?_).1⟩ <;> exact h)

theorem p2_orderThen_hidden (q : String) (res : OrderRes) (t : MState) :
    (Part002.orderThen q res t).pagination = none ∧
      (Part002.orderThen q res t).pagiDisplay = "none" :=
  ⟨rfl, rfl⟩

theorem p2_searchCatch_hidden (t : MState) :
    (Part002.searchCatch t).pagination = none ∧
      (Part002.searchCatch t).pagiDisplay = "none" :=
  ⟨rfl, rfl⟩

theorem p2_orderCatch_hidden (t : MState) :
    (Part002.orderCatch t).pagination = none ∧
      (Part002.orderCatch t).pagiDisplay = "none" :=
  ⟨rfl, rfl⟩

theorem p4_orderThen_hidden (q : String) (res : OrderRes) (t : MState) :
    (Part004.orderThen q res t).pagination = none ∧
      (Part004.orderThen q res t).pagiDisplay = "none" :=
  ⟨rfl, rfl⟩

theorem p4_searchCatch_hidden (t : MState) :
    (Part004.searchCatch t).pagination = none ∧
      (Part004.searchCatch t).pagiDisplay = "none" :=
  ⟨rfl, rfl⟩

theorem p4_orderCatch_hidden (t : MState) :
    (Part004.orderCatch t).pagination = none ∧
      (Part004.orderCatch t).pagiDisplay = "none" :=
  ⟨rfl, rfl⟩

theorem p2_searchStart_mode (q : String) (p : Int) (n : Bool) (t : MState) :
    (Part002.searchStart q p n t).mode = t.mode := (p2_searchStart_unchanged q p n t).1

theorem p2_orderStart_mode (q : String) (t : MState) :
    (Part002.orderStart q t).mode = t.mode := (p2_orderStart_unchanged q t).1

theorem p2_orderStart_pagination (q : String) (t : MState) :
    (Part002.orderStart q t).pagination = t.pagination := (p2_orderStart_unchanged q t).2.1

theorem p2_orderStart_pagiDisplay (q : String) (t : MState) :
    (Part002.orderStart q t).pagiDisplay = t.pagiDisplay := (p2_orderStart_unchanged q t).2.2

theorem p4_searchStart_mode (q : String) (p : Int) (n : Bool) (t : MState) :
    (Part004.searchStart q p n t).mode = t.mode := (p4_searchStart_unchanged q p n t).1

theorem p4_orderStart_mode (q : String) (t : MState) :
    (Part004.orderStart q t).mode = t.mode := (p4_orderStart_unchanged q t).1

theorem p4_orderStart_pagination (q : String) (t : MState) :
    (Part004.orderStart q t).pagination = t.pagination := (p4_orderStart_unchanged q t).2.1

theorem p4_orderStart_pagiDisplay (q : String) (t : MState) :
    (Part004.orderStart q t).pagiDisplay = t.pagiDisplay := (p4_orderStart_unchanged q t).2.2

/-- One part_002 event keeps the mode inside `{products, orders}`:
`switchMode` is only ever invoked with these two literals. -/
theorem p2_step_mode (s : MState) (e : MEvent)
    (hP : s.mode = "products" ∨ s.mode = "orders") :
    (Part002.step s e).mode = "products" ∨ (Part002.step s e).mode = "orders" := by
  cases e with
  | tabProducts =>
    simp only [Part002.step]
    by_cases h : "products" = s.mode
    · rw [p2_switchMode_same _ _ h]; exact hP
    · exact Or.inl (p2_switchMode_reset _ _ h).1
  | tabOrders =>
    simp only [Part002.step]
    by_cases h : "orders" = s.mode
    · rw [p2_switchMode_same _ _ h]; exact hP
    · exact Or.inr (p2_switchMode_reset _ _ h).1
  | submit raw =>
    simp only [Part002.step]
    by_cases hq : jsTrim raw = ""
    · simpa [hq] using hP
    · cases hl : s.isLoading with
      | true => simpa [hq] using hP
      | false =>
        by_cases hm : s.mode = "products"
        · simp [hq, hm, Part002.appendMsg, p2_searchStart_mode]
        · have hmo : s.mode = "orders" := by
            rcases hP with h1 | h2
            · exact absurd h1 hm
            · exact h2
          simp [hq, hm, Part002.appendMsg, p2_orderStart_mode, hmo]
  | clickPrev =>
    simp only [Part002.step]
    by_cases hm : s.mode ≠ "products"
    · simpa [hm] using hP
    · simp only [hm, if_false, ite_false]
      cases hpag : s.pagination with
      | none => simpa using hP
      | some p =>
        cases hl : s.isLoading with
        | true => simpa using hP
        | false =>
          by_cases hprev : p.has_prev
          · simp [hprev, p2_searchStart_mode]
            simpa using hP
          · simpa [hprev] using hP
  | clickNext =>
    simp only [Part002.step]
    by_cases hm : s.mode ≠ "products"
    · simpa [hm] using hP
    · simp only [hm, if_false, ite_false]
      cases hpag : s.pagination with
      | none => simpa using hP
      | some p =>
        cases hl : s.isLoading with
        | true => simpa using hP
        | false =>
          by_cases hnext : p.has_next
          · simp [hnext, p2_searchStart_mode]
            simpa using hP
          · simpa [hnext] using hP
  | searchResponse r =>
    simp only [Part002.step]
    cases hf : s.inFlight with
    | none => simpa using hP
    | some fl =>
      cases fl with
      | search n =>
        cases r with
        | ok res => rw [p2_searchThen_mode]; exact hP
        | error e => rw [p2_searchCatch_mode]; exact hP
      | order q => simpa using hP
  | orderResponse r =>
    simp only [Part002.step]
    cases hf : s.inFlight with
    | none => simpa using hP
    | some fl =>
      cases fl with
      | search n => simpa using hP
      | order q =>
        cases r with
        | ok res => rw [p2_orderThen_mode]; exact hP
        | error e => rw [p2_orderCatch_mode]; exact hP

/-- One part_004 event keeps the mode inside `{products, orders}`. -/
theorem p4_step_mode (s : MState) (e : MEvent)
    (hP : s.mode = "products" ∨ s.mode = "orders") :
    (Part004.step s e).mode = "products" ∨ (Part004.step s e).mode = "orders" := by
  cases e with
  | tabProducts =>
    simp only [Part004.step]
    by_cases h : "products" = s.mode
    · rw [p4_switchMode_same _ _ h]; exact hP
    · exact Or.inl (p4_switchMode_reset _ _ h).1
  | tabOrders =>
    simp only [Part004.step]
    by_cases h : "orders" = s.mode
    · rw [p4_switchMode_same _ _ h]; exact hP
    · exact Or.inr (p4_switchMode_reset _ _ h).1
  | submit raw =>
    simp only [Part004.step]
    by_cases hq : jsTrim raw = ""
    · simpa [hq] using hP
    · cases hl : s.isLoading with
      | true => simpa [hq] using hP
      | false =>
        by_cases hm : s.mode = "products"
        · simp [hq, hm, p4_searchStart_mode]
        · have hmo : s.mode = "orders" := by
            rcases hP with h1 | h2
            · exact absurd h1 hm
            · exact h2
          simp [hq, hm, p4_orderStart_mode, hmo]
  | clickPrev =>
    simp only [Part004.step]
    by_cases hm : s.mode ≠ "products"
    · simpa [hm] using hP
    · simp only [hm, if_false, ite_false]
      cases hpag : s.pagination with
      | none => simpa using hP
      | some p =>
        cases hl : s.isLoading with
        | true => simpa using hP
        | false =>
          by_cases hprev : p.has_prev
          · simp [hprev, p4_searchStart_mode]
            simpa using hP
          · simpa [hprev] using hP
  | clickNext =>
    simp only [Part004.step]
    by_cases hm : s.mode ≠ "products"
    · simpa [hm] using hP
    · simp only [hm, if_false, ite_false]
      cases hpag : s.pagination with
      | none => simpa using hP
      | some p =>
        cases hl : s.isLoading with
        | true => simpa using hP
        | false =>
          by_cases hnext : p.has_next
          · simp [hnext, p4_searchStart_mode]
            simpa using hP
          · simpa [hnext] using hP
  | searchResponse r =>
    simp only [Part004.step]
    cases hf : s.inFlight with
    | none => simpa using hP
    | some fl =>
      cases fl with
      | search n =>
        cases r with
        | ok res => rw [p4_searchThen_mode]; exact hP
        | error e => rw [p4_searchCatch_mode]; exact hP
      | order q => simpa using hP
  | orderResponse r =>
    simp only [Part004.step]
    cases hf : s.inFlight with
    | none => simpa using hP
    | some fl =>
      cases fl with
      | search n => simpa using hP
      | order q =>
        cases r with
        | ok res => rw [p4_orderThen_mode]; exact hP
        | error e => rw [p4_orderCatch_mode]; exact hP

/-- One part_002 event preserves "outside products mode the pagination
bar is hidden and the stored pagination object cleared". -/
theorem p2_step_hidden (s : MState) (e : MEvent)
    (hP : s.mode ≠ "products" → s.pagination = none ∧ s.pagiDisplay = "none") :
    (Part002.step s e).mode ≠ "products" →
      (Part002.step s e).pagination = none ∧ (Part002.step s e).pagiDisplay = "none" := by
  cases e with
  | tabProducts =>
    simp only [Part002.step]
    by_cases h : "products" = s.mode
    · rw [p2_switchMode_same _ _ h]; exact hP
    · intro hmode
      exact absurd (p2_switchMode_reset _ _ h).1 hmode
  | tabOrders =>
    simp only [Part002.step]
    by_cases h : "orders" = s.mode
    · rw [p2_switchMode_same _ _ h]; exact hP
    · intro _
      exact ⟨(p2_switchMode_reset _ _ h).2.2.2.1, (p2_switchMode_reset _ _ h).2.2.2.2⟩
  | submit raw =>
    simp only [Part002.step]
    by_cases hq : jsTrim raw = ""
    · simpa [hq] using hP
    · cases hl : s.isLoading with
      | true => simpa [hq] using hP
      | false =>
        by_cases hm : s.mode = "products"
        · simp [hq, hm, Part002.appendMsg, p2_searchStart_mode]
        · simp only [Part002.appendMsg, Bool.false_eq_true, if_false, ite_false,
            if_true, ite_true]
          rw [if_neg hq, if_neg hm]
          intro _
          constructor
          · rw [p2_orderStart_pagination]
            exact (hP hm).1
          · rw [p2_orderStart_pagiDisplay]
            exact (hP hm).2
  | clickPrev =>
    simp only [Part002.step]
    by_cases hm : s.mode ≠ "products"
    · simpa [hm] using hP
    · have hmp : s.mode = "products" := not_ne_iff.mp hm
      simp only [hm, if_false, ite_false]
      cases hpag : s.pagination with
      | none => simpa using hP
      | some p =>
        cases hl : s.isLoading with
        | true => simpa using hP
        | false =>
          by_cases hprev : p.has_prev
          · simp [hprev, p2_searchStart_mode, hmp]
          · simpa [hprev] using hP
  | clickNext =>
    simp only [Part002.step]
    by_cases hm : s.mode ≠ "products"
    · simpa [hm] using hP
    · have hmp : s.mode = "products" := not_ne_iff.mp hm
      simp only [hm, if_false, ite_false]
      cases hpag : s.pagination with
      | none => simpa using hP
      | some p =>
        cases hl : s.isLoading with
        | true => simpa using hP
        | false =>
          by_cases hnext : p.has_next
          · simp [hnext, p2_searchStart_mode, hmp]
          · simpa [hnext] using hP
  | searchResponse r =>
    simp only [Part002.step]
    cases hf : s.inFlight with
    | none => simpa using hP
    | some fl =>
      cases fl with
      | search n =>
        cases r with
        | ok res =>
          intro hmode
          have hsm : s.mode ≠ "products" := by rwa [p2_searchThen_mode] at hmode
          exact p2_searchThen_hidden res n s hsm
        | error e =>
          intro _
          exact p2_searchCatch_hidden s
      | order q => simpa using hP
  | orderResponse r =>
    simp only [Part002.step]
    cases hf : s.inFlight with
    | none => simpa using hP
    | some fl =>
      cases fl with
      | search n => simpa using hP
      | order q =>
        cases r with
        | ok res =>
          intro _
          exact p2_orderThen_hidden q res s
        | error e =>
          intro _
          exact p2_orderCatch_hidden s

/-- One part_004 event preserves the same hidden-pagination property. -/
theorem p4_step_hidden (s : MState) (e : MEvent)
    (hP : s.mode ≠ "products" → s.pagination = none ∧ s.pagiDisplay = "none") :
    (Part004.step s e).mode ≠ "products" →
      (Part004.step s e).pagination = none ∧ (Part004.step s e).pagiDisplay = "none" := by
  cases e with
  | tabProducts =>
    simp only [Part004.step]
    by_cases h : "products" = s.mode
    · rw [p4_switchMode_same _ _ h]; exact hP
    · intro hmode
      exact absurd (p4_switchMode_reset _ _ h).1 hmode
  | tabOrders =>
    simp only [Part004.step]
    by_cases h : "orders" = s.mode
    · rw [p4_switchMode_same _ _ h]; exact hP
    · intro _
      exact ⟨(p4_switchMode_reset _ _ h).2.2.2.1, (p4_switchMode_reset _ _ h).2.2.2.2⟩
  | submit raw =>
    simp only [Part004.step]
    by_cases hq : jsTrim raw = ""
    · simpa [hq] using hP
    · cases hl : s.isLoading with
      | true => simpa [hq] using hP
      | false =>
        by_cases hm : s.mode = "products"
        · simp [hq, hm, p4_searchStart_mode]
        · simp only [Bool.false_eq_true, if_false, ite_false, if_true, ite_true]
          rw [if_neg hq, if_neg hm]
          intro _
          constructor
          · rw [p4_orderStart_pagination]
            exact (hP hm).1
          · rw [p4_orderStart_pagiDisplay]
            exact (hP hm).2
  | clickPrev =>
    simp only [Part004.step]
    by_cases hm : s.mode ≠ "products"
    · simpa [hm] using hP
    · have hmp : s.mode = "products" := not_ne_iff.mp hm
      simp only [hm, if_false, ite_false]
      cases hpag : s.pagination with
      | none => simpa using hP
      | some p =>
        cases hl : s.isLoading with
        | true => simpa using hP
        | false =>
          by_cases hprev : p.has_prev
          · simp [hprev, p4_searchStart_mode, hmp]
          · simpa [hprev] using hP
  | clickNext =>
    simp only [Part004.step]
    by_cases hm : s.mode ≠ "products"
    · simpa [hm] using hP
    · have hmp : s.mode = "products" := not_ne_iff.mp hm
      simp only [hm, if_false, ite_false]
      cases hpag : s.pagination with
      | none => simpa using hP
      | some p =>
        cases hl : s.isLoading with
        | true => simpa using hP
        | false =>
          by_cases hnext : p.has_next
          · simp [hnext, p4_searchStart_mode, hmp]
          · simpa [hnext] using hP
  | searchResponse r =>
    simp only [Part004.step]
    cases hf : s.inFlight with
    | none => simpa using hP
    | some fl =>
      cases fl with
      | search n =>
        cases r with
        | ok res =>
          intro hmode
          have hsm : s.mode ≠ "products" := by rwa [p4_searchThen_mode] at hmode
          exact p4_searchThen_hidden res n s hsm
        | error e =>
          intro _
          exact p4_searchCatch_hidden s
      | order q => simpa using hP
  | orderResponse r =>
    simp only [Part004.step]
    cases hf : s.inFlight with
    | none => simpa using hP
    | some fl =>
      cases fl with
      | search n => simpa using hP
      | order q =>
        cases r with
        | ok res =>
          intro _
          exact p4_orderThen_hidden q res s
        | error e =>
          intro _
          exact p4_orderCatch_hidden s

/-! ## Claim C8 — `trackImpressions` payload shape -/

/-- C8: For every product list and query text, `trackImpressions` emits a
single `maxter_products_shown` event whose `items` array has exactly
`min 20 (products.length)` entries — the first products in input order,
each reduced to `index`, `title`, `price` and `product_url` — while
`items_count` is the full length of the product list. -/
theorem claim8_trackImpressions (products : List Product) (queryText : String) :
    (WidgetJs.trackImpressions products queryText).1 = "maxter_products_shown" ∧
    objGet (WidgetJs.trackImpressions products queryText).2 "query"
      = some (JVal.s queryText) ∧
    objGet (WidgetJs.trackImpressions products queryText).2 "items_count"
      = some (JVal.i (products.length : Int)) ∧
    ∀ items : List JVal,
      objGet (WidgetJs.trackImpressions products queryText).2 "items"
          = some (JVal.a items) →
        items.length = min 20 products.length ∧
        ∀ k : Nat, ∀ hk : k < items.length, ∃ hp : k < products.length,
          items.get ⟨k, hk⟩ =
            JVal.o [("index", JVal.i (k : Int)),
                    ("title", JVal.s (products.get ⟨k, hp⟩).title),
                    ("price", JVal.s (products.get ⟨k, hp⟩).price),
                    ("product_url", JVal.s (products.get ⟨k, hp⟩).product_url)] := by
  refine ⟨rfl, rfl, rfl, ?_⟩
  intro items hitems
  have hid : items = WidgetJs.impItems 0 (products.take 20) := by
    have : some (JVal.a (WidgetJs.impItems 0 (products.take 20))) = some (JVal.a items) := hitems
    cases this
    rfl
  subst hid
  have hlen : (WidgetJs.impItems 0 (products.take 20)).length = min 20 products.length := by
    rw [impItems_length]
    exact List.length_take 20 products
  refine ⟨hlen, ?_⟩
  intro k hk
  have hk' : k < min 20 products.length := hlen ▸ hk
  have hp : k < products.length := lt_of_lt_of_le hk' (min_le_right _ _)
  have htk : k < (products.take 20).length := by
    rw [List.length_take]; exact hk'
  refine ⟨hp, ?_⟩
  have := impItems_get (products.take 20) 0 k hk htk
  rw [this]
  have hget : (products.take 20).get ⟨k, htk⟩ = products.get ⟨k, hp⟩ := by
    simp [List.getElem_take]
  rw [hget]
  simp

/-- C8 witness: a concrete 21-product list keeps only 20 items but
reports `items_count = 21`. -/
theorem claim8_witness :
    (let ps := List.replicate 21 ({ title := "t", price := "$1", product_url := "u",
                                    buy_url := "b", image := "i" } : Product)
     objGet (WidgetJs.trackImpressions ps "tv").2 "items_count"
         = some (JVal.i 21) ∧
     ∀ items : List JVal,
       objGet (WidgetJs.trackImpressions ps "tv").2 "items" = some (JVal.a items) →
         items.length = 20) := by
  intro ps
  refine ⟨(claim8_trackImpressions ps "tv").2.2.1, ?_⟩
  intro items hitems
  have h := ((claim8_trackImpressions ps "tv").2.2.2 items hitems).1
  simpa using h

/-! ## Claim C5 — the `track` analytics fan-out -/

/-- Lookup distributes over list append. -/
theorem lookup_append {β : Type} (l1 l2 : List (String × β)) (k : String) :
    (l1 ++ l2).lookup k = ((l1.lookup k).orElse (fun _ => l2.lookup k)) := by
  induction l1 with
  | nil => simp [List.lookup]
  | cons x l1 ih =>
    obtain ⟨k1, v⟩ := x
    by_cases hk : k == k1
    · simp [List.lookup, hk]
    · simp only [List.cons_append, List.lookup, hk]
      exact ih

/-- Reading a freshly consed property: the older entries (which are
spread later, so they win) are consulted first. -/
theorem objGet_cons (k1 : String) (v : JVal) (p : JsObj) (k : String) :
    objGet ((k1, v) :: p) k =
      ((objGet p k).orElse (fun _ => if k == k1 then some v else none)) := by
  simp only [objGet, List.reverse_cons, lookup_append, List.lookup]
  cases hk : k == k1 <;> simp [hk]

/-- The GA4 part of claim C5 exactly as stated: every object `track`
pushes onto `window.dataLayer` has the event name as its `event` field,
for every payload. -/
def c5GA4AsStated : Prop :=
  ∀ (eventName : String) (payload : JsObj) (env : WidgetJs.TrackEnv),
    env.dataLayerFails = false →
    ∀ o ∈ (WidgetJs.track eventName payload env).dataLayerPushes,
      objGet o "event" = some (JVal.s eventName)

/-- C5 counterexample: the payload is spread *after* the `event`
property (`{ event: eventName, ...payload }`), so a payload that itself
carries an `event` key overrides the event name.  With payload
`{event: "boom"}` the pushed object's `event` field is `"boom"`, not the
event name. -/
theorem claim5_counterexample : ¬ c5GA4AsStated := by
  intro h
  have hmem : mergedEvent "maxter_test" [("event", JVal.s "boom")] ∈
      (WidgetJs.track "maxter_test" [("event", JVal.s "boom")]
        ⟨false, false, false, none, false, false⟩).dataLayerPushes := by
    simp [WidgetJs.track]
  have hv := h "maxter_test" [("event", JVal.s "boom")]
    ⟨false, false, false, none, false, false⟩ rfl _ hmem
  have hb : objGet (mergedEvent "maxter_test" [("event", JVal.s "boom")]) "event"
      = some (JVal.s "boom") := rfl
  rw [hb] at hv
  injection hv with hv1
  injection hv1 with hv2
  exact absurd hv2 (by decide)

/-- C5 (amended): `track` forwards every event to the three pipelines —
the GA4 push is `{event: eventName, ...payload}` (whose `event` field is
the event name whenever the payload has no `event` key of its own, and
the payload's value otherwise), `fbq` gets a `trackCustom` call whenever
it is a function (plus the standard `ViewContent`/`AddToCart` hint for
`maxter_view_product`/`maxter_buy_click`), and the beacon fires only
when the trimmed `window.MAXTER_TRACK_ENDPOINT` is non-empty and
`navigator.sendBeacon` exists; each pipeline sits in its own try/catch,
so a failure in one does not prevent the others. -/
theorem claim5_track (eventName : String) (payload : JsObj) (env : WidgetJs.TrackEnv) :
    (env.dataLayerFails = false →
      (WidgetJs.track eventName payload env).dataLayerPushes
          = [mergedEvent eventName payload] ∧
      (objGet payload "event" = none →
        objGet (mergedEvent eventName payload) "event" = some (JVal.s eventName)) ∧
      (∀ v, objGet payload "event" = some v →
        objGet (mergedEvent eventName payload) "event" = some v)) ∧
    (env.fbqPresent = true → env.fbqFails = false →
      WidgetJs.FbqCall.trackCustom eventName payload
          ∈ (WidgetJs.track eventName payload env).fbqCalls ∧
      (eventName = "maxter_view_product" →
        WidgetJs.FbqCall.std "ViewContent" (WidgetJs.productTitle payload) "MXN"
            (WidgetJs.productValue payload)
          ∈ (WidgetJs.track eventName payload env).fbqCalls) ∧
      (eventName = "maxter_buy_click" →
        WidgetJs.FbqCall.std "AddToCart" (WidgetJs.productTitle payload) "MXN"
            (WidgetJs.productValue payload)
          ∈ (WidgetJs.track eventName payload env).fbqCalls)) ∧
    (env.fbqPresent = false → (WidgetJs.track eventName payload env).fbqCalls = []) ∧
    (∀ r ∈ (WidgetJs.track eventName payload env).beacons,
      (jsTrim (env.trackEndpoint.getD "") ≠ "" ∧ env.sendBeaconPresent = true) ∧
      r = WidgetJs.beaconRequest (jsTrim (env.trackEndpoint.getD "")) eventName payload) ∧
    (jsTrim (env.trackEndpoint.getD "") ≠ "" → env.sendBeaconPresent = true →
      env.beaconFails = false →
      (WidgetJs.track eventName payload env).beacons
        = [WidgetJs.beaconRequest (jsTrim (env.trackEndpoint.getD "")) eventName payload]) ∧
    (∀ b : Bool,
      (WidgetJs.track eventName payload { env with dataLayerFails := b }).fbqCalls
          = (WidgetJs.track eventName payload env).fbqCalls ∧
      (WidgetJs.track eventName payload { env with dataLayerFails := b }).beacons
          = (WidgetJs.track eventName payload env).beacons ∧
      (WidgetJs.track eventName payload { env with fbqFails := b }).dataLayerPushes
          = (WidgetJs.track eventName payload env).dataLayerPushes ∧
      (WidgetJs.track eventName payload { env with fbqFails := b }).beacons
          = (WidgetJs.track eventName payload env).beacons ∧
      (WidgetJs.track eventName payload { env with beaconFails := b }).dataLayerPushes
          = (WidgetJs.track eventName payload env).dataLayerPushes ∧
      (WidgetJs.track eventName payload { env with beaconFails := b }).fbqCalls
          = (WidgetJs.track eventName payload env).fbqCalls) := by
  refine ⟨?_, ?_, ?_, ?_, ?_, ?_⟩
  · intro hdl
    refine ⟨by simp [WidgetJs.track, hdl], ?_, ?_⟩
    · intro hnone
      rw [mergedEvent, objGet_cons, hnone]
      rfl
    · intro v hv
      rw [mergedEvent, objGet_cons, hv]
      rfl
  · intro hp hf
    refine ⟨?_, ?_, ?_⟩
    · simp [WidgetJs.track, hp, hf]
    · intro he; simp [WidgetJs.track, hp, hf, he]
    · intro he; simp [WidgetJs.track, hp, hf, he]
  · intro hp
    simp [WidgetJs.track, hp]
  · intro r hr
    by_cases hc : jsTrim (env.trackEndpoint.getD "") ≠ "" ∧ env.sendBeaconPresent ∧ ¬env.beaconFails
    · refine ⟨⟨hc.1, by simpa using hc.2.1⟩, ?_⟩
      simp only [WidgetJs.track, if_pos hc] at hr
      simpa using hr
    · simp only [WidgetJs.track, if_neg hc] at hr
      exact absurd hr (List.not_mem_nil r)
  · intro h1 h2 h3
    simp [WidgetJs.track, h1, h2, h3]
  · intro b
    exact ⟨rfl, rfl, rfl, rfl, rfl, rfl⟩

/-- C5 witness: concrete `maxter_view_product` event with fbq present
and a configured beacon endpoint — all three pipelines fire. -/
theorem claim5_witness :
    (WidgetJs.FbqCall.trackCustom "maxter_view_product" []
      ∈ (WidgetJs.track "maxter_view_product" []
          ⟨false, true, false, some "https://collector.example/e", true, false⟩).fbqCalls) ∧
    (WidgetJs.track "maxter_view_product" []
        ⟨false, true, false, some "https://collector.example/e", true, false⟩).beacons
      = [WidgetJs.beaconRequest "https://collector.example/e" "maxter_view_product" []] := by
  have h := claim5_track "maxter_view_product" []
    ⟨false, true, false, some "https://collector.example/e", true, false⟩
  refine ⟨(h.2.1 rfl rfl).1, ?_⟩
  have hb := h.2.2.2.2.1 (by decide) rfl rfl
  have htrim : jsTrim ((some "https://collector.example/e" : Option String).getD "")
      = "https://collector.example/e" := by decide
  rw [htrim] at hb
  exact hb

/-! ## Claim C10 — `moneyToNumber` -/

/-- C10 counterexample: the claim states that every falsy input,
including the number `0`, returns `null`; but the `typeof m === "number"`
branch runs first, so `moneyToNumber(0)` returns `0`, not `null`. -/
theorem claim10_counterexample :
    moneyToNumber (JSValue.num (JSNum.fin 0)) = JSValue.num (JSNum.fin 0) ∧
    moneyToNumber (JSValue.num (JSNum.fin 0)) ≠ JSValue.jsNull := by
  exact ⟨rfl, by decide⟩

/-- C10 (amended): `moneyToNumber` is total; the number branch takes
precedence, returning every number input unchanged (hence `0` maps to
`0`, not `null`, and a NaN input is returned as NaN); `null`, `undefined`
and the empty string return `null`; every other string returns the parse
of the cleaned string (strip → remove thousands dots → first comma to
dot) when it is finite and `null` otherwise — in particular a string
input never yields NaN. -/
theorem claim10_moneyToNumber :
    (∀ n : JSNum, moneyToNumber (JSValue.num n) = JSValue.num n) ∧
    moneyToNumber JSValue.jsNull = JSValue.jsNull ∧
    moneyToNumber JSValue.undef = JSValue.jsNull ∧
    moneyToNumber (JSValue.str "") = JSValue.jsNull ∧
    (∀ s : String, s ≠ "" →
      moneyToNumber (JSValue.str s) =
        (let f := parseFloatJS (repComma (removeThousandsDots (stripMoney s)))
         if jsIsFinite f then JSValue.num f else JSValue.jsNull)) ∧
    (∀ s : String,
      (∃ q : ℚ, moneyToNumber (JSValue.str s) = JSValue.num (JSNum.fin q)) ∨
        moneyToNumber (JSValue.str s) = JSValue.jsNull) ∧
    (∀ s : String, moneyToNumber (JSValue.str s) ≠ JSValue.num JSNum.nan) := by
  refine ⟨fun n => rfl, rfl, rfl, rfl, ?_, ?_, ?_⟩
  · intro s hs
    simp [moneyToNumber, hs]
  · intro s
    by_cases hs : s = ""
    · right; simp [moneyToNumber, hs]
    · simp only [moneyToNumber, hs, if_false]
      cases hf : parseFloatJS (repComma (removeThousandsDots (stripMoney s))) with
      | nan => right; simp [jsIsFinite, hf]
      | inf => right; simp [jsIsFinite, hf]
      | ninf => right; simp [jsIsFinite, hf]
      | fin q => left; exact ⟨q, by simp [jsIsFinite, hf]⟩
  · intro s
    by_cases hs : s = ""
    · simp [moneyToNumber, hs]
    · simp only [moneyToNumber, hs, if_false]
      cases hf : parseFloatJS (repComma (removeThousandsDots (stripMoney s))) with
      | nan => simp [jsIsFinite, hf]
      | inf => simp [jsIsFinite, hf]
      | ninf => simp [jsIsFinite, hf]
      | fin q => simp [jsIsFinite, hf]

/-- C10 witness: the amended description evaluated at concrete inputs:
`"abc"` cleans to an unparseable string and returns `null`, and the
money string `"$1.234,50"` does not yield NaN. -/
theorem claim10_witness :
    moneyToNumber (JSValue.str "abc") = JSValue.jsNull ∧
    moneyToNumber (JSValue.str "$1.234,50") ≠ JSValue.num JSNum.nan := by
  constructor
  · have h := claim10_moneyToNumber.2.2.2.2.1 "abc" (by decide)
    exact h.trans (by decide)
  · exact claim10_moneyToNumber.2.2.2.2.2.2 "$1.234,50"

/-! ## Claim C9 — the `isLoading` guard: at most one request in flight -/

/-- C9: In the two-mode versions, whenever `chatState.isLoading` is true,
`performSearch` and `performOrderLookup` return immediately with the
state unchanged (so no request is sent, no message appended and no field
modified); and whenever a call does go through (`isLoading` was false),
`isLoading` is false again on every completion path, success or error. -/
theorem claim9_loading_guard :
    (∀ (q : String) (p : Int) (n : Bool) (o : Except Unit SearchRes) (s : MState),
      s.isLoading = true → Part002.performSearch q p n o s = s) ∧
    (∀ (q : String) (o : Except Unit OrderRes) (s : MState),
      s.isLoading = true → Part002.performOrderLookup q o s = s) ∧
    (∀ (q : String) (p : Int) (n : Bool) (o : Except Unit SearchRes) (s : MState),
      s.isLoading = true → Part004.performSearch q p n o s = s) ∧
    (∀ (q : String) (o : Except Unit OrderRes) (s : MState),
      s.isLoading = true → Part004.performOrderLookup q o s = s) ∧
    (∀ (q : String) (p : Int) (n : Bool) (o : Except Unit SearchRes) (s : MState),
      s.isLoading = false → (Part002.performSearch q p n o s).isLoading = false) ∧
    (∀ (q : String) (o : Except Unit OrderRes) (s : MState),
      s.isLoading = false → (Part002.performOrderLookup q o s).isLoading = false) ∧
    (∀ (q : String) (p : Int) (n : Bool) (o : Except Unit SearchRes) (s : MState),
      s.isLoading = false → (Part004.performSearch q p n o s).isLoading = false) ∧
    (∀ (q : String) (o : Except Unit OrderRes) (s : MState),
      s.isLoading = false → (Part004.performOrderLookup q o s).isLoading = false) := by
  refine ⟨?_, ?_, ?_, ?_, ?_, ?_, ?_, ?_⟩
  · intro q p n o s h; simp [Part002.performSearch, h]
  · intro q o s h; simp [Part002.performOrderLookup, h]
  · intro q p n o s h; simp [Part004.performSearch, h]
  · intro q o s h; simp [Part004.performOrderLookup, h]
  · intro q p n o s h
    simp only [Part002.performSearch, h, Bool.false_eq_true, if_false]
    cases o with
    | ok res => exact p2_searchThen_isLoading res n _
    | error e => exact p2_searchCatch_isLoading _
  · intro q o s h
    simp only [Part002.performOrderLookup, h, Bool.false_eq_true, if_false]
    cases o with
    | ok res => exact p2_orderThen_isLoading q res _
    | error e => exact p2_orderCatch_isLoading _
  · intro q p n o s h
    simp only [Part004.performSearch, h, Bool.false_eq_true, if_false]
    cases o with
    | ok res => exact p4_searchThen_isLoading res n _
    | error e => exact p4_searchCatch_isLoading _
  · intro q o s h
    simp only [Part004.performOrderLookup, h, Bool.false_eq_true, if_false]
    cases o with
    | ok res => exact p4_orderThen_isLoading q res _
    | error e => exact p4_orderCatch_isLoading _

/-- C9 witness: a loading state swallows calls unchanged; a completed
lookup on an idle state ends with `isLoading = false`. -/
theorem claim9_witness :
    Part002.performSearch "tv" 2 false (Except.error ())
        { Part002.init "https://b.example" with isLoading := true }
      = { Part002.init "https://b.example" with isLoading := true } ∧
    (Part004.performOrderLookup "1234" (Except.ok ⟨none, none, none⟩)
        (Part004.init "https://b.example")).isLoading = false := by
  constructor
  · exact claim9_loading_guard.1 "tv" 2 false (Except.error ()) _ rfl
  · exact claim9_loading_guard.2.2.2.2.2.2.2 "1234" (Except.ok ⟨none, none, none⟩) _ rfl

/-! ## Claim C6 — part_002 and part_004 product searches are equivalent -/

/-- C6: On the same chat state and the same `(query, page, isNewSearch)`
inputs and fetch outcome, `performSearch` of part_002 and part_004 send
exactly the same requests — in particular, when the guard lets the call
through, one POST to `/api/chat` whose JSON body is
`{ message: chatState.currentQuery, page, per_page: 10 }` — and perform
identical updates to `currentQuery`, `currentPage`, `isLoading` and
`pagination`. -/
theorem claim6_performSearch_equiv (q : String) (p : Int) (n : Bool)
    (o : Except Unit SearchRes) (s : MState) :
    (Part002.performSearch q p n o s).requests = (Part004.performSearch q p n o s).requests ∧
    (Part002.performSearch q p n o s).currentQuery
        = (Part004.performSearch q p n o s).currentQuery ∧
    (Part002.performSearch q p n o s).currentPage
        = (Part004.performSearch q p n o s).currentPage ∧
    (Part002.performSearch q p n o s).isLoading
        = (Part004.performSearch q p n o s).isLoading ∧
    (Part002.performSearch q p n o s).pagination
        = (Part004.performSearch q p n o s).pagination ∧
    (s.isLoading = false →
      (Part002.performSearch q p n o s).requests =
        s.requests ++ [Part002.chatRequest s.backend (if n then q else s.currentQuery) p] ∧
      Part002.chatRequest s.backend (if n then q else s.currentQuery) p =
        { method := "POST", contentType := "application/json",
          url := s.backend ++ "/api/chat",
          body := ReqBody.msgPagePer (if n then q else s.currentQuery) p 10 }) := by
  cases hl : s.isLoading with
  | true =>
    refine ⟨?_, ?_, ?_, ?_, ?_, ?_⟩ <;>
      simp [Part002.performSearch, Part004.performSearch, hl]
  | false =>
    have hstart : Part002.searchStart q p n s = Part004.searchStart q p n s := rfl
    refine ⟨?_, ?_, ?_, ?_, ?_, ?_⟩
    · simp only [Part002.performSearch, Part004.performSearch, hl, Bool.false_eq_true, if_false]
      cases o with
      | ok res =>
        rw [(p2_searchThen_fields res n _).1, (p4_searchThen_fields res n _).1, hstart]
      | error e =>
        rw [(p2_searchCatch_fields _).1, (p4_searchCatch_fields _).1, hstart]
    · simp only [Part002.performSearch, Part004.performSearch, hl, Bool.false_eq_true, if_false]
      cases o with
      | ok res =>
        rw [(p2_searchThen_fields res n _).2.1, (p4_searchThen_fields res n _).2.1, hstart]
      | error e =>
        rw [(p2_searchCatch_fields _).2.1, (p4_searchCatch_fields _).2.1, hstart]
    · simp only [Part002.performSearch, Part004.performSearch, hl, Bool.false_eq_true, if_false]
      cases o with
      | ok res =>
        rw [(p2_searchThen_fields res n _).2.2, (p4_searchThen_fields res n _).2.2, hstart]
      | error e =>
        rw [(p2_searchCatch_fields _).2.2.1, (p4_searchCatch_fields _).2.2.1, hstart]
    · simp only [Part002.performSearch, Part004.performSearch, hl, Bool.false_eq_true, if_false]
      cases o with
      | ok res =>
        rw [p2_searchThen_isLoading res n _, p4_searchThen_isLoading res n _]
      | error e =>
        rw [p2_searchCatch_isLoading _, p4_searchCatch_isLoading _]
    · simp only [Part002.performSearch, Part004.performSearch, hl, Bool.false_eq_true, if_false]
      cases o with
      | ok res =>
        rw [hstart]
        exact searchThen_pagination_eq res n _
      | error e =>
        rw [(p2_searchCatch_fields _).2.2.2, (p4_searchCatch_fields _).2.2.2]
    · intro _
      refine ⟨?_, rfl⟩
      simp only [Part002.performSearch, hl, Bool.false_eq_true, if_false]
      cases o with
      | ok res =>
        rw [(p2_searchThen_fields res n _).1]
        cases n <;> simp [Part002.searchStart, Part002.showLoading]
      | error e =>
        rw [(p2_searchCatch_fields _).1]
        cases n <;> simp [Part002.searchStart, Part002.showLoading]

/-- C6 witness: concrete successful page-2 search from a common state —
both versions store the same pagination object and the guarded request
is the documented POST body. -/
theorem claim6_witness :
    (let s0 := { Part002.init "https://b.example" with currentQuery := "tv" }
     let res : SearchRes :=
       ⟨some "ok", some [{ title := "t", price := "$1", product_url := "u",
                           buy_url := "b", image := "i" }],
        some ⟨2, 3, 25, true, true⟩⟩
     (Part002.performSearch "tv" 2 false (Except.ok res) s0).pagination
         = (Part004.performSearch "tv" 2 false (Except.ok res) s0).pagination ∧
     (Part002.performSearch "tv" 2 false (Except.ok res) s0).requests
         = [Part002.chatRequest "https://b.example" "tv" 2]) := by
  intro s0 res
  refine ⟨(claim6_performSearch_equiv "tv" 2 false (Except.ok res) s0).2.2.2.2.1, ?_⟩
  have h := ((claim6_performSearch_equiv "tv" 2 false (Except.ok res) s0).2.2.2.2.2 rfl).1
  simpa using h

/-! ## Claim C2 — the single try/catch is the only failure recovery -/

/-- C2: For every query whose fetch or JSON decoding fails, the catch
(plus the shared epilogue) is the whole failure recovery, and the final
state is characterised exactly: the fixed fallback bot message is
appended, the loading state is cleared (`isLoading := false`, submit/send
button re-enabled, loading bubble removed), pagination is hidden where
the version has pagination, and nothing else changes beyond the updates
the search itself performed before the fetch (`currentQuery`/
`currentPage` bookkeeping and the dispatched request). -/
theorem claim2_error_path :
    (∀ (q : String) (p : Int) (n : Bool) (s : MState), s.isLoading = false →
      Part002.performSearch q p n (Except.error ()) s =
        { s with
          currentQuery := if n then q else s.currentQuery,
          currentPage := if n then 1 else p,
          isLoading := false, submitDisabled := false,
          submitLabel := if s.mode = "orders" then "Consultar" else "Enviar",
          loadingMsg := none,
          body := s.body ++
            [BodyItem.msg "Hubo un problema al buscar productos. Intenta de nuevo." "mx-msg mx-bot"],
          pagiDisplay := "none", pagination := none, inFlight := none,
          requests := s.requests ++
            [Part002.chatRequest s.backend (if n then q else s.currentQuery) p] }) ∧
    (∀ (q : String) (p : Int) (n : Bool) (s : MState), s.isLoading = false →
      Part004.performSearch q p n (Except.error ()) s =
        { s with
          currentQuery := if n then q else s.currentQuery,
          currentPage := if n then 1 else p,
          isLoading := false, submitDisabled := false,
          submitLabel := if s.mode = "orders" then "Consultar" else "Enviar",
          loadingMsg := none,
          body := s.body ++
            [BodyItem.msg "Hubo un problema al buscar productos. Intenta de nuevo." "mx-msg"],
          pagiDisplay := "none", pagination := none, inFlight := none,
          requests := s.requests ++
            [Part004.chatRequest s.backend (if n then q else s.currentQuery) p] }) ∧
    (∀ (m : String) (s : WidgetJs.WState), jsTrim s.inputValue ≠ "" →
      WidgetJs.sendQuery (Except.error m) s =
        { s with
          inputValue := "", sendDisabled := false,
          body := s.body ++ [BodyItem.msg (jsTrim s.inputValue) "mx-msg",
            BodyItem.msg "Hubo un problema al consultar. Intenta de nuevo." "mx-msg mx-msg--bot"],
          events := s.events ++ [("maxter_query_sent", [("query", JVal.s (jsTrim s.inputValue))]),
            ("maxter_query_error", [("message", JVal.s m)])],
          requests := s.requests ++ [WidgetJs.chatRequest s.backend (jsTrim s.inputValue)] }) := by
  refine ⟨?_, ?_, ?_⟩
  · intro q p n s h
    cases n <;>
      simp [Part002.performSearch, h, Part002.searchStart, Part002.searchCatch,
        Part002.showLoading, Part002.hideLoading, Part002.appendMsg,
        Part002.updatePagination]
  · intro q p n s h
    cases n <;>
      simp [Part004.performSearch, h, Part004.searchStart, Part004.searchCatch,
        Part004.showLoading, Part004.hideLoading, Part004.appendMsg,
        Part004.updatePagination]
  · intro m s h
    simp [WidgetJs.sendQuery, h, WidgetJs.addMsg]

/-- C2 witness: a failing new search from the part_002 initial state ends
with the fallback bubble, loading cleared and pagination hidden. -/
theorem claim2_witness :
    Part002.performSearch "tv" 1 true (Except.error ()) (Part002.init "https://b.example") =
      { Part002.init "https://b.example" with
        currentQuery := "tv", currentPage := 1,
        isLoading := false, submitDisabled := false, submitLabel := "Enviar",
        loadingMsg := none,
        body := (Part002.init "https://b.example").body ++
          [BodyItem.msg "Hubo un problema al buscar productos. Intenta de nuevo." "mx-msg mx-bot"],
        pagiDisplay := "none", pagination := none, inFlight := none,
        requests := [Part002.chatRequest "https://b.example" "tv" 1] } := by
  have h := claim2_error_path.1 "tv" 1 true (Part002.init "https://b.example") rfl
  simpa using h

theorem p2_renderOrders_requests (o : String) (i : List OrderItem) (f : Option String)
    (t : MState) : (Part002.renderOrders o i f t).requests = t.requests := by
  simp only [Part002.renderOrders]
  by_cases ho : o ≠ "" <;> cases i <;> cases f <;> simp [ho, Part002.appendMsg]

theorem p2_orderThen_requests (q : String) (res : OrderRes) (t : MState) :
    (Part002.orderThen q res t).requests = t.requests := by
  simp [Part002.orderThen, p2_upd_requests, p2_renderOrders_requests, Part002.hideLoading]

theorem p2_orderCatch_requests (t : MState) :
    (Part002.orderCatch t).requests = t.requests := by
  simp [Part002.orderCatch, Part002.appendMsg, Part002.hideLoading, p2_upd_requests]

theorem p4_renderOrders_requests (o : String) (i : List OrderItem) (f : Option String)
    (t : MState) : (Part004.renderOrders o i f t).requests = t.requests := by
  simp only [Part004.renderOrders]
  by_cases ho : o ≠ "" <;> cases i <;> cases f <;> simp [ho, Part004.appendMsg]

theorem p4_orderThen_requests (q : String) (res : OrderRes) (t : MState) :
    (Part004.orderThen q res t).requests = t.requests := by
  simp [Part004.orderThen, p4_upd_requests, p4_renderOrders_requests, Part004.hideLoading]

theorem p4_orderCatch_requests (t : MState) :
    (Part004.orderCatch t).requests = t.requests := by
  simp [Part004.orderCatch, Part004.appendMsg, Part004.hideLoading, p4_upd_requests]

/-! ## Claim C1 — every HTTP request of every version -/

/-- Every request-issuing site across the six widget versions, with the
parameters that site receives: the `fetch` calls (one or two per
version) and the `navigator.sendBeacon` call inside widget.js `track`.
Each constructor carries the version's `BACKEND` value first. -/
inductive Emission where
  | wjChat (backend q : String)
  | wjBeacon (backend endpoint eventName : String) (payload : JsObj)
  | p3Chat (backend q : String)
  | p0Chat (backend q : String) (page : Int)
  | p0Order (backend raw : String)
  | p1Chat (backend q : String) (page : Int)
  | p1Order (backend raw : String)
  | p2Chat (backend message : String) (page : Int)
  | p2Order (backend q : String)
  | p4Chat (backend message : String) (page : Int)
  | p4Order (backend q : String)

/-- The HTTP request a site issues, via the per-version request
builders used by the embedded operations themselves. -/
def emissionRequest : Emission → HttpRequest
  | Emission.wjChat b q => WidgetJs.chatRequest b q
  | Emission.wjBeacon _ ep ev pl => WidgetJs.beaconRequest ep ev pl
  | Emission.p3Chat b q => Part003.chatRequest b q
  | Emission.p0Chat b q page => Part000.chatRequest b q page
  | Emission.p0Order b raw => Part000.orderStatusRequest b raw
  | Emission.p1Chat b q page => Part001.chatRequest b q page
  | Emission.p1Order b raw => Part001.orderStatusRequest b raw
  | Emission.p2Chat b m page => Part002.chatRequest b m page
  | Emission.p2Order b q => Part002.orderRequest b q
  | Emission.p4Chat b m page => Part004.chatRequest b m page
  | Emission.p4Order b q => Part004.orderRequest b q

/-- The `BACKEND` of the version a site belongs to. -/
def emissionBackend : Emission → String
  | Emission.wjChat b _ => b
  | Emission.wjBeacon b _ _ _ => b
  | Emission.p3Chat b _ => b
  | Emission.p0Chat b _ _ => b
  | Emission.p0Order b _ => b
  | Emission.p1Chat b _ _ => b
  | Emission.p1Order b _ => b
  | Emission.p2Chat b _ _ => b
  | Emission.p2Order b _ => b
  | Emission.p4Chat b _ _ => b
  | Emission.p4Order b _ => b

/-- Whether the site is the analytics beacon. -/
def isBeacon : Emission → Bool
  | Emission.wjBeacon _ _ _ _ => true
  | _ => false

/-- Claim C1 exactly as stated: every HTTP request any version issues is
a POST with Content-Type `application/json` to one of the three fixed
backend paths. -/
def c1AsStated : Prop :=
  ∀ e : Emission,
    (emissionRequest e).method = "POST" ∧
    (emissionRequest e).contentType = "application/json" ∧
    ((emissionRequest e).url = emissionBackend e ++ "/api/chat" ∨
     (emissionRequest e).url = emissionBackend e ++ "/api/orders" ∨
     (emissionRequest e).url = emissionBackend e ++ "/api/orders/status")

/-- C1 counterexample: when `window.MAXTER_TRACK_ENDPOINT` is configured,
`track` posts the analytics beacon to that arbitrary endpoint — an HTTP
request of the widget that targets none of the three backend paths. -/
theorem claim1_counterexample : ¬c1AsStated := by
  intro h
  have hx := (h (Emission.wjBeacon "https://backend.example"
    "https://collector.example/e" "maxter_panel_open" [])).2.2
  rcases hx with h1 | h1 | h1 <;> exact absurd h1 (by decide)

/-- Request-log preservation through part_000's pagination repaint. -/
theorem l0_updUI_requests (t : LState) :
    (Part000.updatePaginationUI t).requests = t.requests := by
  cases hp : t.pagination <;> simp [Part000.updatePaginationUI, hp]

/-- Request-log preservation through part_000's answer painting. -/
theorem l0_paint_requests (ans : Ans0) (t : LState) :
    (Part000.paintProductsAnswer ans t).requests = t.requests := by
  simp only [Part000.paintProductsAnswer]
  cases hah : ans.answer_html <;> cases ha : ans.answer <;> cases hc : ans.cards_html <;>
    simp [Part000.appendMsgP, l0_updUI_requests]

/-- Request-log preservation through part_001's pagination repaint. -/
theorem l1_updUI_requests (t : LState) :
    (Part001.updatePaginationUI t).requests = t.requests := by
  cases hp : t.pagination <;> simp [Part001.updatePaginationUI, hp]

/-- Request-log preservation through part_001's answer painting. -/
theorem l1_paint_requests (ans : Ans0) (t : LState) :
    (Part001.paintProductsAnswer ans t).requests = t.requests := by
  simp only [Part001.paintProductsAnswer]
  cases hah : ans.answer_html <;> cases hc : ans.cards_html <;>
    simp [Part001.appendMsgP, l1_updUI_requests]

/-- C1 (amended): every request is a POST whose Content-Type is
`application/json`; every `fetch` request goes to one of the three
fixed backend paths; the one exception to the path discipline is the
optional analytics beacon, which goes to the configurable
`window.MAXTER_TRACK_ENDPOINT` instead.  The embedded operations emit
exactly the enumerated requests: each one either issues nothing or
appends its single documented request to the log. -/
theorem claim1_fetch_requests :
    (∀ e : Emission,
      (emissionRequest e).method = "POST" ∧
      (emissionRequest e).contentType = "application/json") ∧
    (∀ e : Emission, isBeacon e = false →
      (emissionRequest e).url = emissionBackend e ++ "/api/chat" ∨
      (emissionRequest e).url = emissionBackend e ++ "/api/orders" ∨
      (emissionRequest e).url = emissionBackend e ++ "/api/orders/status") ∧
    (∀ (b ep ev : String) (pl : JsObj),
      (emissionRequest (Emission.wjBeacon b ep ev pl)).url = ep) ∧
    (∀ (eventName : String) (payload : JsObj) (env : WidgetJs.TrackEnv),
      (WidgetJs.track eventName payload env).beacons = [] ∨
      (WidgetJs.track eventName payload env).beacons =
        [emissionRequest (Emission.wjBeacon ""
          (jsTrim (env.trackEndpoint.getD "")) eventName payload)]) ∧
    (∀ (o : Except String WidgetJs.WData) (s : WidgetJs.WState),
      (WidgetJs.sendQuery o s).requests = s.requests ∨
      (WidgetJs.sendQuery o s).requests =
        s.requests ++ [emissionRequest (Emission.wjChat s.backend (jsTrim s.inputValue))]) ∧
    (∀ (o : Except Unit WidgetJs.WData) (s : Part003.P3State),
      (Part003.sendQuery o s).requests = s.requests ∨
      (Part003.sendQuery o s).requests =
        s.requests ++ [emissionRequest (Emission.p3Chat s.backend (jsTrim s.inputValue))]) ∧
    (∀ (q : String) (page : Int) (fromUser : Bool) (o : Except Unit (Bool × Ans0)) (s : LState),
      (Part000.performSearch q page fromUser o s).requests = s.requests ∨
      (Part000.performSearch q page fromUser o s).requests =
        s.requests ++ [emissionRequest (Emission.p0Chat s.backend q page)]) ∧
    (∀ (raw : String) (o : Except Unit (Bool × Bool × Option String)) (s : LState),
      (Part000.performOrderLookup raw o s).requests = s.requests ∨
      (Part000.performOrderLookup raw o s).requests =
        s.requests ++ [emissionRequest (Emission.p0Order s.backend raw)]) ∧
    (∀ (q : String) (page : Int) (fromUser : Bool) (o : Except Unit (Bool × Ans0)) (s : LState),
      (Part001.performSearch q page fromUser o s).requests = s.requests ∨
      (Part001.performSearch q page fromUser o s).requests =
        s.requests ++ [emissionRequest (Emission.p1Chat s.backend q page)]) ∧
    (∀ (raw : String) (o : Except Unit (Bool × Bool × Option String)) (s : LState),
      (Part001.performOrderLookup raw o s).requests = s.requests ∨
      (Part001.performOrderLookup raw o s).requests =
        s.requests ++ [emissionRequest (Emission.p1Order s.backend raw)]) ∧
    (∀ (q : String) (p : Int) (n : Bool) (o : Except Unit SearchRes) (s : MState),
      (Part002.performSearch q p n o s).requests = s.requests ∨
      (Part002.performSearch q p n o s).requests =
        s.requests ++ [emissionRequest
          (Emission.p2Chat s.backend (if n then q else s.currentQuery) p)]) ∧
    (∀ (q : String) (o : Except Unit OrderRes) (s : MState),
      (Part002.performOrderLookup q o s).requests = s.requests ∨
      (Part002.performOrderLookup q o s).requests =
        s.requests ++ [emissionRequest (Emission.p2Order s.backend q)]) ∧
    (∀ (q : String) (p : Int) (n : Bool) (o : Except Unit SearchRes) (s : MState),
      (Part004.performSearch q p n o s).requests = s.requests ∨
      (Part004.performSearch q p n o s).requests =
        s.requests ++ [emissionRequest
          (Emission.p4Chat s.backend (if n then q else s.currentQuery) p)]) ∧
    (∀ (q : String) (o : Except Unit OrderRes) (s : MState),
      (Part004.performOrderLookup q o s).requests = s.requests ∨
      (Part004.performOrderLookup q o s).requests =
        s.requests ++ [emissionRequest (Emission.p4Order s.backend q)]) := by
  refine ⟨?_, ?_, ?_, ?_, ?_, ?_, ?_, ?_, ?_, ?_, ?_, ?_, ?_, ?_⟩
  · intro e; cases e <;> exact ⟨rfl, rfl⟩
  · intro e h
    cases e with
    | wjChat b q => exact Or.inl rfl
    | wjBeacon b ep ev pl => exact absurd h (by simp [isBeacon])
    | p3Chat b q => exact Or.inl rfl
    | p0Chat b q page => exact Or.inl rfl
    | p0Order b raw => exact Or.inr (Or.inr rfl)
    | p1Chat b q page => exact Or.inl rfl
    | p1Order b raw => exact Or.inr (Or.inr rfl)
    | p2Chat b m page => exact Or.inl rfl
    | p2Order b q => exact Or.inr (Or.inl rfl)
    | p4Chat b m page => exact Or.inl rfl
    | p4Order b q => exact Or.inr (Or.inl rfl)
  · intro b ep ev pl; rfl
  · intro eventName payload env
    by_cases hc : jsTrim (env.trackEndpoint.getD "") ≠ "" ∧
        env.sendBeaconPresent ∧ ¬env.beaconFails
    · right; simp [WidgetJs.track, hc, emissionRequest]
    · left; simp only [WidgetJs.track, if_neg hc]
  · intro o s
    by_cases hq : jsTrim s.inputValue = ""
    · left; simp [WidgetJs.sendQuery, hq]
    · right
      cases o with
      | ok data =>
        cases hp : data.products with
        | none => simp [WidgetJs.sendQuery, hq, WidgetJs.addMsg, hp, emissionRequest]
        | some ps =>
          cases ps <;>
            simp [WidgetJs.sendQuery, hq, WidgetJs.addMsg, hp,
              WidgetJs.renderProducts, emissionRequest]
      | error m => simp [WidgetJs.sendQuery, hq, WidgetJs.addMsg, emissionRequest]
  · intro o s
    by_cases hq : jsTrim s.inputValue = ""
    · left; simp [Part003.sendQuery, hq]
    · right
      cases o with
      | ok data =>
        cases hp : data.products with
        | none => simp [Part003.sendQuery, hq, Part003.addMsg, hp, emissionRequest]
        | some ps =>
          cases ps <;>
            simp [Part003.sendQuery, hq, Part003.addMsg, hp,
              Part003.renderProducts, emissionRequest]
      | error m => simp [Part003.sendQuery, hq, Part003.addMsg, emissionRequest]
  · intro q page fromUser o s
    by_cases hq : jsTrim q = ""
    · left; simp [Part000.performSearch, hq]
    · right
      cases o with
      | ok pr =>
        obtain ⟨okb, data⟩ := pr
        cases okb <;> cases fromUser <;>
          simp [Part000.performSearch, hq, Part000.appendMsgP, Part000.setLoading,
            l0_paint_requests, emissionRequest]
      | error e =>
        cases fromUser <;>
          simp [Part000.performSearch, hq, Part000.appendMsgP, Part000.setLoading,
            emissionRequest]
  · intro raw o s
    by_cases hq : jsTrim raw = ""
    · left; simp [Part000.performOrderLookup, hq]
    · right
      cases o with
      | ok pr =>
        obtain ⟨rok, dok, ans⟩ := pr
        cases rok <;> cases dok <;>
          simp [Part000.performOrderLookup, hq, Part000.appendMsgO,
            Part000.setLoadingOrders, emissionRequest]
      | error e =>
        simp [Part000.performOrderLookup, hq, Part000.appendMsgO,
          Part000.setLoadingOrders, emissionRequest]
  · intro q page fromUser o s
    by_cases hq : jsTrim q = ""
    · left; simp [Part001.performSearch, hq]
    · right
      cases o with
      | ok pr =>
        obtain ⟨okb, data⟩ := pr
        cases okb <;> cases fromUser <;>
          simp [Part001.performSearch, hq, Part001.appendMsgP, Part001.setLoading,
            l1_paint_requests, emissionRequest]
      | error e =>
        cases fromUser <;>
          simp [Part001.performSearch, hq, Part001.appendMsgP, Part001.setLoading,
            emissionRequest]
  · intro raw o s
    by_cases hq : jsTrim raw = ""
    · left; simp [Part001.performOrderLookup, hq]
    · right
      cases o with
      | ok pr =>
        obtain ⟨rok, dok, ans⟩ := pr
        cases rok <;> cases dok <;>
          simp [Part001.performOrderLookup, hq, Part001.appendMsgO,
            Part001.setLoadingOrders, emissionRequest]
      | error e =>
        simp [Part001.performOrderLookup, hq, Part001.appendMsgO,
          Part001.setLoadingOrders, emissionRequest]
  · intro q p n o s
    cases hl : s.isLoading with
    | true => left; simp [Part002.performSearch, hl]
    | false =>
      right
      simp only [Part002.performSearch, hl, Bool.false_eq_true, if_false]
      cases o with
      | ok res =>
        rw [(p2_searchThen_fields res n _).1]
        cases n <;> simp [Part002.searchStart, Part002.showLoading, emissionRequest]
      | error e =>
        rw [(p2_searchCatch_fields _).1]
        cases n <;> simp [Part002.searchStart, Part002.showLoading, emissionRequest]
  · intro q o s
    cases hl : s.isLoading with
    | true => left; simp [Part002.performOrderLookup, hl]
    | false =>
      right
      simp only [Part002.performOrderLookup, hl, Bool.false_eq_true, if_false]
      cases o with
      | ok res =>
        rw [p2_orderThen_requests]
        simp [Part002.orderStart, Part002.showLoading, emissionRequest]
      | error e =>
        rw [p2_orderCatch_requests]
        simp [Part002.orderStart, Part002.showLoading, emissionRequest]
  · intro q p n o s
    cases hl : s.isLoading with
    | true => left; simp [Part004.performSearch, hl]
    | false =>
      right
      simp only [Part004.performSearch, hl, Bool.false_eq_true, if_false]
      cases o with
      | ok res =>
        rw [(p4_searchThen_fields res n _).1]
        cases n <;> simp [Part004.searchStart, Part004.showLoading, emissionRequest]
      | error e =>
        rw [(p4_searchCatch_fields _).1]
        cases n <;> simp [Part004.searchStart, Part004.showLoading, emissionRequest]
  · intro q o s
    cases hl : s.isLoading with
    | true => left; simp [Part004.performOrderLookup, hl]
    | false =>
      right
      simp only [Part004.performOrderLookup, hl, Bool.false_eq_true, if_false]
      cases o with
      | ok res =>
        rw [p4_orderThen_requests]
        simp [Part004.orderStart, Part004.showLoading, emissionRequest]
      | error e =>
        rw [p4_orderCatch_requests]
        simp [Part004.orderStart, Part004.showLoading, emissionRequest]

/-- C1 witness: the fetch of part_002's order lookup targets exactly
`BACKEND + "/api/orders"` as a JSON POST. -/
theorem claim1_witness :
    (emissionRequest (Emission.p2Order "https://b.example" "123")).method = "POST" ∧
    ((emissionRequest (Emission.p2Order "https://b.example" "123")).url
        = emissionBackend (Emission.p2Order "https://b.example" "123") ++ "/api/chat" ∨
      (emissionRequest (Emission.p2Order "https://b.example" "123")).url
        = emissionBackend (Emission.p2Order "https://b.example" "123") ++ "/api/orders" ∨
      (emissionRequest (Emission.p2Order "https://b.example" "123")).url
        = emissionBackend (Emission.p2Order "https://b.example" "123") ++ "/api/orders/status") := by
  exact ⟨(claim1_fetch_requests.1 (Emission.p2Order "https://b.example" "123")).1,
    claim1_fetch_requests.2.1 (Emission.p2Order "https://b.example" "123") rfl⟩

/-! ## Claim C3 — the pagination click handlers -/

/-- C3: In every version, a click on the previous (next) pagination
button issues a new search only when `chatState.pagination` is non-null,
its `has_prev` (`has_next`) flag is true and `isLoading` is false — in
part_000/part_001 it then invokes `performSearch` with the unchanged
`currentQuery` and exactly page `currentPage - 1` (`+ 1`); in
part_002/part_004 (which additionally require products mode) it
dispatches the search whose POST reuses `currentQuery` and requests
exactly `currentPage - 1` (`+ 1`).  In every other situation the click
changes nothing. -/
theorem claim3_pagination_clicks :
    (∀ (o : Except Unit (Bool × Ans0)) (s : LState),
      s.pagination = none → Part000.clickPrev o s = s ∧ Part000.clickNext o s = s) ∧
    (∀ (o : Except Unit (Bool × Ans0)) (s : LState) (p : Pagi0),
      s.pagination = some p → p.has_prev = false ∨ s.isLoading = true →
        Part000.clickPrev o s = s) ∧
    (∀ (o : Except Unit (Bool × Ans0)) (s : LState) (p : Pagi0),
      s.pagination = some p → p.has_next = false ∨ s.isLoading = true →
        Part000.clickNext o s = s) ∧
    (∀ (o : Except Unit (Bool × Ans0)) (s : LState) (p : Pagi0),
      s.pagination = some p → p.has_prev = true → s.isLoading = false →
        Part000.clickPrev o s
          = Part000.performSearch s.currentQuery (s.currentPage - 1) false o s) ∧
    (∀ (o : Except Unit (Bool × Ans0)) (s : LState) (p : Pagi0),
      s.pagination = some p → p.has_next = true → s.isLoading = false →
        Part000.clickNext o s
          = Part000.performSearch s.currentQuery (s.currentPage + 1) false o s) ∧
    (∀ (o : Except Unit (Bool × Ans0)) (s : LState),
      s.pagination = none → Part001.clickPrev o s = s ∧ Part001.clickNext o s = s) ∧
    (∀ (o : Except Unit (Bool × Ans0)) (s : LState) (p : Pagi0),
      s.pagination = some p → p.has_prev = false ∨ s.isLoading = true →
        Part001.clickPrev o s = s) ∧
    (∀ (o : Except Unit (Bool × Ans0)) (s : LState) (p : Pagi0),
      s.pagination = some p → p.has_next = false ∨ s.isLoading = true →
        Part001.clickNext o s = s) ∧
    (∀ (o : Except Unit (Bool × Ans0)) (s : LState) (p : Pagi0),
      s.pagination = some p → p.has_prev = true → s.isLoading = false →
        Part001.clickPrev o s
          = Part001.performSearch s.currentQuery (s.currentPage - 1) false o s) ∧
    (∀ (o : Except Unit (Bool × Ans0)) (s : LState) (p : Pagi0),
      s.pagination = some p → p.has_next = true → s.isLoading = false →
        Part001.clickNext o s
          = Part001.performSearch s.currentQuery (s.currentPage + 1) false o s) ∧
    (∀ s : MState, s.pagination = none →
      Part002.step s MEvent.clickPrev = s ∧ Part002.step s MEvent.clickNext = s) ∧
    (∀ (s : MState) (p : Pagination), s.pagination = some p →
      p.has_prev = false ∨ s.isLoading = true → Part002.step s MEvent.clickPrev = s) ∧
    (∀ (s : MState) (p : Pagination), s.pagination = some p →
      p.has_next = false ∨ s.isLoading = true → Part002.step s MEvent.clickNext = s) ∧
    (∀ s : MState, s.mode ≠ "products" →
      Part002.step s MEvent.clickPrev = s ∧ Part002.step s MEvent.clickNext = s) ∧
    (∀ (s : MState) (p : Pagination), s.mode = "products" → s.pagination = some p →
      p.has_prev = true → s.isLoading = false →
        Part002.step s MEvent.clickPrev
            = Part002.searchStart s.currentQuery (s.currentPage - 1) false s ∧
        (Part002.step s MEvent.clickPrev).requests = s.requests ++
            [Part002.chatRequest s.backend s.currentQuery (s.currentPage - 1)]) ∧
    (∀ (s : MState) (p : Pagination), s.mode = "products" → s.pagination = some p →
      p.has_next = true → s.isLoading = false →
        Part002.step s MEvent.clickNext
            = Part002.searchStart s.currentQuery (s.currentPage + 1) false s ∧
        (Part002.step s MEvent.clickNext).requests = s.requests ++
            [Part002.chatRequest s.backend s.currentQuery (s.currentPage + 1)]) ∧
    (∀ s : MState, s.pagination = none →
      Part004.step s MEvent.clickPrev = s ∧ Part004.step s MEvent.clickNext = s) ∧
    (∀ (s : MState) (p : Pagination), s.pagination = some p →
      p.has_prev = false ∨ s.isLoading = true → Part004.step s MEvent.clickPrev = s) ∧
    (∀ (s : MState) (p : Pagination), s.pagination = some p →
      p.has_next = false ∨ s.isLoading = true → Part004.step s MEvent.clickNext = s) ∧
    (∀ s : MState, s.mode ≠ "products" →
      Part004.step s MEvent.clickPrev = s ∧ Part004.step s MEvent.clickNext = s) ∧
    (∀ (s : MState) (p : Pagination), s.mode = "products" → s.pagination = some p →
      p.has_prev = true → s.isLoading = false →
        Part004.step s MEvent.clickPrev
            = Part004.searchStart s.currentQuery (s.currentPage - 1) false s ∧
        (Part004.step s MEvent.clickPrev).requests = s.requests ++
            [Part004.chatRequest s.backend s.currentQuery (s.currentPage - 1)]) ∧
    (∀ (s : MState) (p : Pagination), s.mode = "products" → s.pagination = some p →
      p.has_next = true → s.isLoading = false →
        Part004.step s MEvent.clickNext
            = Part004.searchStart s.currentQuery (s.currentPage + 1) false s ∧
        (Part004.step s MEvent.clickNext).requests = s.requests ++
            [Part004.chatRequest s.backend s.currentQuery (s.currentPage + 1)]) := by
  refine ⟨?_, ?_, ?_, ?_, ?_, ?_, ?_, ?_, ?_, ?_, ?_, ?_, ?_, ?_, ?_, ?_, ?_, ?_, ?_, ?_, ?_, ?_⟩
  · intro o s h; exact ⟨by simp [Part000.clickPrev, h], by simp [Part000.clickNext, h]⟩
  · intro o s p hpag hc
    rcases hc with h1 | h1 <;> simp [Part000.clickPrev, hpag, h1]
  · intro o s p hpag hc
    rcases hc with h1 | h1 <;> simp [Part000.clickNext, hpag, h1]
  · intro o s p hpag h1 h2; simp [Part000.clickPrev, hpag, h1, h2]
  · intro o s p hpag h1 h2; simp [Part000.clickNext, hpag, h1, h2]
  · intro o s h; exact ⟨by simp [Part001.clickPrev, h], by simp [Part001.clickNext, h]⟩
  · intro o s p hpag hc
    rcases hc with h1 | h1 <;> simp [Part001.clickPrev, hpag, h1]
  · intro o s p hpag hc
    rcases hc with h1 | h1 <;> simp [Part001.clickNext, hpag, h1]
  · intro o s p hpag h1 h2; simp [Part001.clickPrev, hpag, h1, h2]
  · intro o s p hpag h1 h2; simp [Part001.clickNext, hpag, h1, h2]
  · intro s h
    constructor <;>
      · by_cases hm : s.mode ≠ "products" <;> simp [Part002.step, hm, h]
  · intro s p hpag hc
    by_cases hm : s.mode ≠ "products"
    · simp [Part002.step, hm]
    · rcases hc with h1 | h1 <;> simp [Part002.step, hm, hpag, h1]
  · intro s p hpag hc
    by_cases hm : s.mode ≠ "products"
    · simp [Part002.step, hm]
    · rcases hc with h1 | h1 <;> simp [Part002.step, hm, hpag, h1]
  · intro s h; exact ⟨by simp [Part002.step, h], by simp [Part002.step, h]⟩
  · intro s p hm hpag h1 h2
    have hstep : Part002.step s MEvent.clickPrev
        = Part002.searchStart s.currentQuery (s.currentPage - 1) false s := by
      simp [Part002.step, hm, hpag, h1, h2]
    refine ⟨hstep, ?_⟩
    rw [hstep]
    simp [Part002.searchStart]
  · intro s p hm hpag h1 h2
    have hstep : Part002.step s MEvent.clickNext
        = Part002.searchStart s.currentQuery (s.currentPage + 1) false s := by
      simp [Part002.step, hm, hpag, h1, h2]
    refine ⟨hstep, ?_⟩
    rw [hstep]
    simp [Part002.searchStart]
  · intro s h
    constructor <;>
      · by_cases hm : s.mode ≠ "products" <;> simp [Part004.step, hm, h]
  · intro s p hpag hc
    by_cases hm : s.mode ≠ "products"
    · simp [Part004.step, hm]
    · rcases hc with h1 | h1 <;> simp [Part004.step, hm, hpag, h1]
  · intro s p hpag hc
    by_cases hm : s.mode ≠ "products"
    · simp [Part004.step, hm]
    · rcases hc with h1 | h1 <;> simp [Part004.step, hm, hpag, h1]
  · intro s h; exact ⟨by simp [Part004.step, h], by simp [Part004.step, h]⟩
  · intro s p hm hpag h1 h2
    have hstep : Part004.step s MEvent.clickPrev
        = Part004.searchStart s.currentQuery (s.currentPage - 1) false s := by
      simp [Part004.step, hm, hpag, h1, h2]
    refine ⟨hstep, ?_⟩
    rw [hstep]
    simp [Part004.searchStart]
  · intro s p hm hpag h1 h2
    have hstep : Part004.step s MEvent.clickNext
        = Part004.searchStart s.currentQuery (s.currentPage + 1) false s := by
      simp [Part004.step, hm, hpag, h1, h2]
    refine ⟨hstep, ?_⟩
    rw [hstep]
    simp [Part004.searchStart]

/-- C3 witness: from a concrete products-mode state on page 2 with both
flags set, the previous-button click dispatches the search for page 1
with the unchanged query; with `isLoading` set the click is a no-op. -/
theorem claim3_witness :
    (let s1 : MState := { Part002.init "https://b.example" with
        currentQuery := "tv", currentPage := 2,
        pagination := some ⟨2, 3, 25, true, true⟩ }
     Part002.step s1 MEvent.clickPrev = Part002.searchStart "tv" 1 false s1 ∧
     (Part002.step s1 MEvent.clickPrev).requests
        = [Part002.chatRequest "https://b.example" "tv" 1] ∧
     Part002.step { s1 with isLoading := true } MEvent.clickPrev
        = { s1 with isLoading := true }) := by
  intro s1
  have h := claim3_pagination_clicks.2.2.2.2.2.2.2.2.2.2.2.2.2.2.1 s1
    ⟨2, 3, 25, true, true⟩ rfl rfl rfl rfl
  refine ⟨h.1, by simpa using h.2, ?_⟩
  exact claim3_pagination_clicks.2.2.2.2.2.2.2.2.2.2.2.1 { s1 with isLoading := true }
    ⟨2, 3, 25, true, true⟩ rfl (Or.inr rfl)

/-! ## Claim C4 — the mode invariant and `switchMode` reset -/

/-- C4: In the two-mode versions, `chatState.mode` is always `"products"`
or `"orders"` (it starts as `"products"` and `switchMode` is only
invoked with these two literals), `switchMode` with the current mode is
a no-op, and `switchMode` with a different mode resets the search state:
`currentQuery := ""`, `currentPage := 1`, `pagination := null`. -/
theorem claim4_mode_and_switchMode :
    (∀ (b : String) (evs : List MEvent),
      (Part002.run b evs).mode = "products" ∨ (Part002.run b evs).mode = "orders") ∧
    (∀ (b : String) (evs : List MEvent),
      (Part004.run b evs).mode = "products" ∨ (Part004.run b evs).mode = "orders") ∧
    (∀ (m : String) (s : MState), m = s.mode → Part002.switchMode m s = s) ∧
    (∀ (m : String) (s : MState), m ≠ s.mode →
      (Part002.switchMode m s).mode = m ∧
      (Part002.switchMode m s).currentQuery = "" ∧
      (Part002.switchMode m s).currentPage = 1 ∧
      (Part002.switchMode m s).pagination = none) ∧
    (∀ (m : String) (s : MState), m = s.mode → Part004.switchMode m s = s) ∧
    (∀ (m : String) (s : MState), m ≠ s.mode →
      (Part004.switchMode m s).mode = m ∧
      (Part004.switchMode m s).currentQuery = "" ∧
      (Part004.switchMode m s).currentPage = 1 ∧
      (Part004.switchMode m s).pagination = none) := by
  refine ⟨?_, ?_, ?_, ?_, ?_, ?_⟩
  · intro b evs
    exact foldlPreserves (fun s e hP => p2_step_mode s e hP) evs (Part002.init b) (Or.inl rfl)
  · intro b evs
    exact foldlPreserves (fun s e hP => p4_step_mode s e hP) evs (Part004.init b) (Or.inl rfl)
  · intro m s h; exact p2_switchMode_same m s h
  · intro m s h
    exact ⟨(p2_switchMode_reset m s h).1, (p2_switchMode_reset m s h).2.1,
      (p2_switchMode_reset m s h).2.2.1, (p2_switchMode_reset m s h).2.2.2.1⟩
  · intro m s h; exact p4_switchMode_same m s h
  · intro m s h
    exact ⟨(p4_switchMode_reset m s h).1, (p4_switchMode_reset m s h).2.1,
      (p4_switchMode_reset m s h).2.2.1, (p4_switchMode_reset m s h).2.2.2.1⟩

/-- C4 witness: switching to the current mode at start changes nothing,
switching to orders resets the search state, and after a concrete event
run the mode is still one of the two literals. -/
theorem claim4_witness :
    Part002.switchMode "products" (Part002.init "https://b.example")
        = Part002.init "https://b.example" ∧
    (Part002.switchMode "orders" (Part002.init "https://b.example")).currentQuery = "" ∧
    (Part002.switchMode "orders" (Part002.init "https://b.example")).pagination = none ∧
    ((Part002.run "https://b.example" [MEvent.tabOrders, MEvent.submit "123"]).mode = "products" ∨
      (Part002.run "https://b.example" [MEvent.tabOrders, MEvent.submit "123"]).mode = "orders") := by
  refine ⟨claim4_mode_and_switchMode.2.2.1 "products" _ rfl, ?_, ?_, ?_⟩
  · exact (claim4_mode_and_switchMode.2.2.2.1 "orders" _ (by decide)).2.1
  · exact (claim4_mode_and_switchMode.2.2.2.1 "orders" _ (by decide)).2.2.2
  · exact claim4_mode_and_switchMode.1 "https://b.example" _

/-! ## Claim C7 — pagination is never shown in orders mode -/

/-- C7: In the two-mode versions, `updatePagination` hides the bar and
clears `chatState.pagination` whenever the mode is not `"products"`, the
pagination object is null, or `total_pages ≤ 1`; in every reachable
state outside products mode the bar is hidden and the object cleared;
and every order lookup that runs (success or error) ends with the
pagination hidden. -/
theorem claim7_orders_hides_pagination :
    (∀ s : MState, (Part002.updatePagination none s).pagiDisplay = "none" ∧
      (Part002.updatePagination none s).pagination = none) ∧
    (∀ (pg : Pagination) (s : MState), s.mode ≠ "products" →
      (Part002.updatePagination (some pg) s).pagiDisplay = "none" ∧
      (Part002.updatePagination (some pg) s).pagination = none) ∧
    (∀ (pg : Pagination) (s : MState), pg.total_pages ≤ 1 →
      (Part002.updatePagination (some pg) s).pagiDisplay = "none" ∧
      (Part002.updatePagination (some pg) s).pagination = none) ∧
    (∀ s : MState, (Part004.updatePagination none s).pagiDisplay = "none" ∧
      (Part004.updatePagination none s).pagination = none) ∧
    (∀ (pg : Pagination) (s : MState), s.mode ≠ "products" →
      (Part004.updatePagination (some pg) s).pagiDisplay = "none" ∧
      (Part004.updatePagination (some pg) s).pagination = none) ∧
    (∀ (pg : Pagination) (s : MState), pg.total_pages ≤ 1 →
      (Part004.updatePagination (some pg) s).pagiDisplay = "none" ∧
      (Part004.updatePagination (some pg) s).pagination = none) ∧
    (∀ (b : String) (evs : List MEvent), (Part002.run b evs).mode ≠ "products" →
      (Part002.run b evs).pagination = none ∧ (Part002.run b evs).pagiDisplay = "none") ∧
    (∀ (b : String) (evs : List MEvent), (Part004.run b evs).mode ≠ "products" →
      (Part004.run b evs).pagination = none ∧ (Part004.run b evs).pagiDisplay = "none") ∧
    (∀ (q : String) (o : Except Unit OrderRes) (s : MState), s.isLoading = false →
      (Part002.performOrderLookup q o s).pagiDisplay = "none" ∧
      (Part002.performOrderLookup q o s).pagination = none) ∧
    (∀ (q : String) (o : Except Unit OrderRes) (s : MState), s.isLoading = false →
      (Part004.performOrderLookup q o s).pagiDisplay = "none" ∧
      (Part004.performOrderLookup q o s).pagination = none) := by
  refine ⟨fun s => ⟨rfl, rfl⟩, ?_, ?_, fun s => ⟨rfl, rfl⟩, ?_, ?_, ?_, ?_, ?_, ?_⟩
  · intro pg s h; exact p2_upd_hide (some pg) s h
  · intro pg s h
    simp only [Part002.updatePagination]
    rw [if_pos (Or.inr h)]
    exact ⟨rfl, rfl⟩
  · intro pg s h; exact p4_upd_hide (some pg) s h
  · intro pg s h
    simp only [Part004.updatePagination]
    rw [if_pos (Or.inr h)]
    exact ⟨rfl, rfl⟩
  · intro b evs
    exact foldlPreserves (fun s e hP => p2_step_hidden s e hP) evs (Part002.init b)
      (fun h => absurd rfl h)
  · intro b evs
    exact foldlPreserves (fun s e hP => p4_step_hidden s e hP) evs (Part004.init b)
      (fun h => absurd rfl h)
  · intro q o s h
    simp only [Part002.performOrderLookup, h, Bool.false_eq_true, if_false]
    cases o with
    | ok res => exact ⟨(p2_orderThen_hidden q res _).2, (p2_orderThen_hidden q res _).1⟩
    | error e => exact ⟨(p2_orderCatch_hidden _).2, (p2_orderCatch_hidden _).1⟩
  · intro q o s h
    simp only [Part004.performOrderLookup, h, Bool.false_eq_true, if_false]
    cases o with
    | ok res => exact ⟨(p4_orderThen_hidden q res _).2, (p4_orderThen_hidden q res _).1⟩
    | error e => exact ⟨(p4_orderCatch_hidden _).2, (p4_orderCatch_hidden _).1⟩

/-- C7 witness: a one-page pagination object is hidden even in products
mode, and a concrete order lookup ends with the bar hidden. -/
theorem claim7_witness :
    (Part002.updatePagination (some ⟨1, 1, 5, false, false⟩)
        (Part002.init "https://b.example")).pagiDisplay = "none" ∧
    (Part004.performOrderLookup "777" (Except.error ())
        (Part004.init "https://b.example")).pagiDisplay = "none" ∧
    (Part004.performOrderLookup "777" (Except.error ())
        (Part004.init "https://b.example")).pagination = none := by
  refine ⟨?_, ?_, ?_⟩
  · exact (claim7_orders_hides_pagination.2.2.1 ⟨1, 1, 5, false, false⟩ _ (by decide)).1
  · exact (claim7_orders_hides_pagination.2.2.2.2.2.2.2.2.2 "777" (Except.error ()) _ rfl).1
  · exact (claim7_orders_hides_pagination.2.2.2.2.2.2.2.2.2 "777" (Except.error ()) _ rfl).2

end Flashbot
